import Mathlib

/-!
# Account controller of the Mesto backend

A shallow embedding of `backend/controllers/users.conroller.js`: the seven
exported request handlers (`getAllUsers`, `getCurrentUser`, `getUserById`,
`createNewUser`, `updateProfile`, `updateAvatar`, `login`) as functions over an
explicit store state.  The collaborators the file requires but does not define
(the mongoose `User` model, `bcrypt`, `jsonwebtoken`, the response codes and the
token secret) are parameters of the handlers.

Modelling choices:
* an `await` that rejects is an `Except.error` carrying the failure object, and
  the handler's `catch (e)` block is a function of that object;
* a handler ends by writing on `res` or by calling `next`; writing on `res` does
  not throw;
* `req.body` is an object of primitive values, `req.user._id` a primitive value
  and `req.params.userId` a string;
* every run records the collaborator calls it made and the failure it caught.
-/

set_option autoImplicit false

namespace Mesto

/-! ## Values, objects and failures -/

/-- JavaScript primitive values carried by request bodies, documents and failures. -/
inductive JsVal where
  | undefined
  | null
  | bool (b : Bool)
  | num (n : Int)
  | str (s : String)
  deriving DecidableEq, Repr

/-- A plain JavaScript object: its own keys in insertion order. -/
abbrev Obj := List (String × JsVal)

/-- Property read `o.k`: the first binding of the key, `undefined` when there is none. -/
def Obj.get (o : Obj) (k : String) : JsVal :=
  match o with
  | [] => JsVal.undefined
  | (k', v) :: rest => if k' = k then v else Obj.get rest k

/-- The own keys of an object. -/
def Obj.keys (o : Obj) : List String := o.map Prod.fst

/-- A failure object raised by the store, the hasher or the signer: the two
properties the catch blocks inspect (`e.name`, `e.code`) and its message. -/
structure JsError where
  name : JsVal
  code : JsVal
  message : String
  deriving DecidableEq, Repr

/-- The four error classes the controller instantiates (`../errors/*`). -/
inductive ErrorClass where
  | ConflictError
  | NotFoundError
  | ValidationError
  | UnauthorizedError
  deriving DecidableEq, Repr

/-- The argument handed to `next`: a freshly built domain error
(`next(new XError(message))`) or the caught failure itself (`next(e)`). -/
inductive NextArg where
  | domain (cls : ErrorClass) (message : String)
  | passed (e : JsError)
  deriving DecidableEq, Repr

/-! ## Responses -/

/-- The options object of `res.cookie`. -/
structure CookieOptions where
  maxAge : Nat
  httpOnly : Bool
  secure : Bool
  sameSite : String
  deriving DecidableEq, Repr

/-- One `res.cookie(name, value, options)` call. -/
structure Cookie where
  name : String
  value : String
  options : CookieOptions
  deriving DecidableEq, Repr

/-- The value given to `res.json`: one object or an array of objects. -/
inductive Body where
  | doc (o : Obj)
  | docs (os : List Obj)
  deriving DecidableEq, Repr

/-- What a handler wrote on `res`: the status it set (`none` when `res.status`
was not called), the cookies it attached and the JSON body. -/
structure Response where
  status : Option Nat
  cookies : List Cookie
  body : Body
  deriving DecidableEq, Repr

/-- How a handler ends: it sends a response or calls `next` with an error. -/
inductive Outcome where
  | sent (r : Response)
  | next (e : NextArg)
  deriving DecidableEq, Repr

/-! ## Collaborators -/

/-- The options object of `findByIdAndUpdate`. -/
structure UpdateOptions where
  runValidators : Bool
  new : Bool
  deriving DecidableEq, Repr

/-- The calls a handler makes on its collaborators, with their arguments. -/
inductive Call where
  | find
  | findByIdOrFail (id : JsVal)
  | create (fields : Obj)
  | findByIdAndUpdateOrFail (id : JsVal) (update : Obj) (options : UpdateOptions)
  | findOneSelectPassword (filter : Obj)
  | bcryptHash (data : JsVal) (rounds : Nat)
  | bcryptCompare (data : JsVal) (encrypted : JsVal)
  | jwtSign (payload : Obj) (secret : String) (expiresIn : String)
  deriving DecidableEq, Repr

/-- The collaborators of the controller over a world state `σ` (the database and
the hasher's salt source).  Every call either returns or raises a `JsError`;
the two writing calls also return the next state.  `findByIdOrFail` stands for
`User.findById(id).orFail()`, `findByIdAndUpdateOrFail` for
`User.findByIdAndUpdate(id, update, options).orFail()` and
`findOneSelectPassword` for `User.findOne(filter).select('+password')`, whose
result is `none` for `null`. -/
structure Backend (σ : Type) where
  find : σ → Except JsError (List Obj)
  findByIdOrFail : σ → JsVal → Except JsError Obj
  create : σ → Obj → Except JsError (Obj × σ)
  findByIdAndUpdateOrFail : σ → JsVal → Obj → UpdateOptions → Except JsError (Obj × σ)
  findOneSelectPassword : σ → Obj → Except JsError (Option Obj)
  hash : σ → JsVal → Nat → Except JsError String
  compare : JsVal → JsVal → Except JsError Bool
  sign : Obj → String → String → Except JsError String

/-- The constants the controller imports from `../utils/response.codes` and
`../utils/secret`. -/
structure Config where
  SUCCESS_CODE : Nat
  SUCCESS_CREATED_CODE : Nat
  TOKEN_SECRET : String
  deriving DecidableEq, Repr

/-- One run of a handler: the collaborator calls it made in order, the failure
its `catch (e)` block received (`none` when the `try` block did not throw), how
it ended and the state it left. -/
structure Run (σ : Type) where
  calls : List Call
  caught : Option JsError
  outcome : Outcome
  state : σ

/-! ## The catch blocks -/

/-- Catch block of `getCurrentUser`. -/
def getCurrentUserCatch (e : JsError) : NextArg :=
  if e.name = JsVal.str "DocumentNotFoundError" then
    NextArg.domain ErrorClass.NotFoundError "Пользователь не найден"
  else if e.name = JsVal.str "CastError" then
    NextArg.domain ErrorClass.ValidationError "Переданы некорректные данные"
  else NextArg.passed e

/-- Catch block of `getUserById`; the not-found message embeds `userId`. -/
def getUserByIdCatch (userId : String) (e : JsError) : NextArg :=
  if e.name = JsVal.str "DocumentNotFoundError" then
    NextArg.domain ErrorClass.NotFoundError ("Пользователь c " ++ userId ++ " не найден")
  else if e.name = JsVal.str "CastError" then
    NextArg.domain ErrorClass.ValidationError "Переданы некорректные данные"
  else NextArg.passed e

/-- Catch block of `createNewUser`; the `code` test comes first. -/
def createNewUserCatch (e : JsError) : NextArg :=
  if e.code = JsVal.num 11000 then
    NextArg.domain ErrorClass.ConflictError "Пользователь с таким email уже существует"
  else if e.name = JsVal.str "CastError" ∨ e.name = JsVal.str "ValidationError" then
    NextArg.domain ErrorClass.ValidationError "Переданы некорректные данные"
  else NextArg.passed e

/-- Catch block of `updateProfile`. -/
def updateProfileCatch (e : JsError) : NextArg :=
  if e.name = JsVal.str "DocumentNotFoundError" then
    NextArg.domain ErrorClass.NotFoundError "Пользователь не найден"
  else if e.name = JsVal.str "CastError" ∨ e.name = JsVal.str "ValidationError" then
    NextArg.domain ErrorClass.ValidationError "Переданы некорректные данные"
  else NextArg.passed e

/-- Catch block of `updateAvatar`. -/
def updateAvatarCatch (e : JsError) : NextArg :=
  if e.name = JsVal.str "DocumentNotFoundError" then
    NextArg.domain ErrorClass.NotFoundError "Пользователь не найден"
  else if e.name = JsVal.str "CastError" ∨ e.name = JsVal.str "ValidationError" then
    NextArg.domain ErrorClass.ValidationError "Переданы некорректные данные"
  else NextArg.passed e

/-- Catch block of `login`. -/
def loginCatch (e : JsError) : NextArg :=
  if e.name = JsVal.str "ValidationError" then
    NextArg.domain ErrorClass.UnauthorizedError "Переданы некорректные данные"
  else NextArg.passed e

/-! ## The handlers -/

section Handlers

variable {σ : Type}

/-- Handler `getAllUsers(req, res, next)`. -/
def getAllUsers (B : Backend σ) (cfg : Config) (s : σ) : Run σ :=
  match B.find s with
  | Except.ok users =>
    ⟨[Call.find], none, Outcome.sent ⟨some cfg.SUCCESS_CODE, [], Body.docs users⟩, s⟩
  | Except.error e => ⟨[Call.find], some e, Outcome.next (NextArg.passed e), s⟩

/-- Handler `getCurrentUser(req, res, next)`; `_id` is `req.user._id`. -/
def getCurrentUser (B : Backend σ) (cfg : Config) (s : σ) (_id : JsVal) : Run σ :=
  match B.findByIdOrFail s _id with
  | Except.ok user =>
    ⟨[Call.findByIdOrFail _id], none,
      Outcome.sent ⟨some cfg.SUCCESS_CODE, [], Body.doc user⟩, s⟩
  | Except.error e =>
    ⟨[Call.findByIdOrFail _id], some e, Outcome.next (getCurrentUserCatch e), s⟩

/-- Handler `getUserById(req, res, next)`; `userId` is `req.params.userId`. -/
def getUserById (B : Backend σ) (cfg : Config) (s : σ) (userId : String) : Run σ :=
  match B.findByIdOrFail s (JsVal.str userId) with
  | Except.ok user =>
    ⟨[Call.findByIdOrFail (JsVal.str userId)], none,
      Outcome.sent ⟨some cfg.SUCCESS_CODE, [], Body.doc user⟩, s⟩
  | Except.error e =>
    ⟨[Call.findByIdOrFail (JsVal.str userId)], some e,
      Outcome.next (getUserByIdCatch userId e), s⟩

/-- The object literal `createNewUser` gives to `User.create`. -/
def createFields (body : Obj) (hashPassword : String) : Obj :=
  [("name", body.get "name"), ("about", body.get "about"),
   ("password", JsVal.str hashPassword), ("email", body.get "email"),
   ("avatar", body.get "avatar")]

/-- The object literal `createNewUser` gives to `res.json`. -/
def createdBody (newUser : Obj) : Obj :=
  [("name", newUser.get "name"), ("about", newUser.get "about"),
   ("email", newUser.get "email"), ("avatar", newUser.get "avatar")]

/-- Handler `createNewUser(req, res, next)`; `body` is `req.body`. -/
def createNewUser (B : Backend σ) (cfg : Config) (s : σ) (body : Obj) : Run σ :=
  let c1 := Call.bcryptHash (body.get "password") 10
  match B.hash s (body.get "password") 10 with
  | Except.error e => ⟨[c1], some e, Outcome.next (createNewUserCatch e), s⟩
  | Except.ok hashPassword =>
    let c2 := Call.create (createFields body hashPassword)
    match B.create s (createFields body hashPassword) with
    | Except.error e => ⟨[c1, c2], some e, Outcome.next (createNewUserCatch e), s⟩
    | Except.ok (newUser, s') =>
      ⟨[c1, c2], none,
        Outcome.sent ⟨some cfg.SUCCESS_CREATED_CODE, [], Body.doc (createdBody newUser)⟩, s'⟩

/-- The options `updateProfile` and `updateAvatar` give to `findByIdAndUpdate`. -/
def updateOptions : UpdateOptions := ⟨true, true⟩

/-- Handler `updateProfile(req, res, next)`. -/
def updateProfile (B : Backend σ) (cfg : Config) (s : σ) (_id : JsVal) (body : Obj) : Run σ :=
  let update : Obj := [("name", body.get "name"), ("about", body.get "about")]
  match B.findByIdAndUpdateOrFail s _id update updateOptions with
  | Except.ok (updatedProfile, s') =>
    ⟨[Call.findByIdAndUpdateOrFail _id update updateOptions], none,
      Outcome.sent ⟨some cfg.SUCCESS_CODE, [], Body.doc updatedProfile⟩, s'⟩
  | Except.error e =>
    ⟨[Call.findByIdAndUpdateOrFail _id update updateOptions], some e,
      Outcome.next (updateProfileCatch e), s⟩

/-- Handler `updateAvatar(req, res, next)`. -/
def updateAvatar (B : Backend σ) (cfg : Config) (s : σ) (_id : JsVal) (body : Obj) : Run σ :=
  let update : Obj := [("avatar", body.get "avatar")]
  match B.findByIdAndUpdateOrFail s _id update updateOptions with
  | Except.ok (updatedAvatar, s') =>
    ⟨[Call.findByIdAndUpdateOrFail _id update updateOptions], none,
      Outcome.sent ⟨some cfg.SUCCESS_CODE, [], Body.doc updatedAvatar⟩, s'⟩
  | Except.error e =>
    ⟨[Call.findByIdAndUpdateOrFail _id update updateOptions], some e,
      Outcome.next (updateAvatarCatch e), s⟩

/-- The options object `login` gives to `res.cookie`. -/
def loginCookieOptions : CookieOptions := ⟨3600000 * 24 * 7, true, true, "None"⟩

/-- The object literal `login` gives to `res.json`. -/
def loginBody (matchingUser : Obj) : Obj :=
  [("_id", matchingUser.get "_id"), ("name", matchingUser.get "name"),
   ("about", matchingUser.get "about"), ("avatar", matchingUser.get "avatar"),
   ("email", matchingUser.get "email")]

/-- Handler `login(req, res, next)`; `body` is `req.body`. -/
def login (B : Backend σ) (cfg : Config) (s : σ) (body : Obj) : Run σ :=
  let email := body.get "email"
  let password := body.get "password"
  let c1 := Call.findOneSelectPassword [("email", email)]
  match B.findOneSelectPassword s [("email", email)] with
  | Except.error e => ⟨[c1], some e, Outcome.next (loginCatch e), s⟩
  | Except.ok none =>
    ⟨[c1], none, Outcome.next (NextArg.domain ErrorClass.UnauthorizedError
      "Переданы некорректные данные"), s⟩
  | Except.ok (some matchingUser) =>
    let c2 := Call.bcryptCompare password (matchingUser.get "password")
    match B.compare password (matchingUser.get "password") with
    | Except.error e => ⟨[c1, c2], some e, Outcome.next (loginCatch e), s⟩
    | Except.ok false =>
      ⟨[c1, c2], none, Outcome.next (NextArg.domain ErrorClass.UnauthorizedError
        "Переданы некорректные данные"), s⟩
    | Except.ok true =>
      let payload : Obj := [("_id", matchingUser.get "_id")]
      let c3 := Call.jwtSign payload cfg.TOKEN_SECRET "7d"
      match B.sign payload cfg.TOKEN_SECRET "7d" with
      | Except.error e => ⟨[c1, c2, c3], some e, Outcome.next (loginCatch e), s⟩
      | Except.ok token =>
        ⟨[c1, c2, c3], none,
          Outcome.sent ⟨none, [⟨"jwt", token, loginCookieOptions⟩],
            Body.doc (loginBody matchingUser)⟩, s⟩

end Handlers

/-! ## The exported handlers as one request type -/

/-- A request to one of the seven handlers of `module.exports`, with the parts
of `req` the handler reads. -/
inductive Request where
  | getAllUsers
  | getCurrentUser (_id : JsVal)
  | getUserById (userId : String)
  | createNewUser (body : Obj)
  | updateProfile (_id : JsVal) (body : Obj)
  | updateAvatar (_id : JsVal) (body : Obj)
  | login (body : Obj)
  deriving DecidableEq, Repr

/-- Runs the handler a request names. -/
def handle {σ : Type} (B : Backend σ) (cfg : Config) (s : σ) : Request → Run σ
  | Request.getAllUsers => getAllUsers B cfg s
  | Request.getCurrentUser _id => getCurrentUser B cfg s _id
  | Request.getUserById userId => getUserById B cfg s userId
  | Request.createNewUser body => createNewUser B cfg s body
  | Request.updateProfile _id body => updateProfile B cfg s _id body
  | Request.updateAvatar _id body => updateAvatar B cfg s _id body
  | Request.login body => login B cfg s body

/-- Does the JSON body carry the key, at top level of the object or of any
element of the array. -/
def Body.hasKey (k : String) : Body → Bool
  | Body.doc o => o.keys.contains k
  | Body.docs os => os.any (fun o => o.keys.contains k)

/-- Is the call a `jwt.sign`. -/
def Call.isSign : Call → Bool
  | Call.jwtSign _ _ _ => true
  | _ => false

/-- Modelled from the spec: the projection of the user schema (`../models/user`
is not among the sources), "never included in any outbound representation
unless explicitly selected": the reads that do not select the password field
(`find`, `findById`, `findByIdAndUpdate`) return documents without it. -/
def Backend.HidesPassword {σ : Type} (B : Backend σ) : Prop :=
  (∀ s us, B.find s = Except.ok us → ∀ u ∈ us, "password" ∉ Obj.keys u) ∧
  (∀ s id u, B.findByIdOrFail s id = Except.ok u → "password" ∉ Obj.keys u) ∧
  (∀ s id upd o u s', B.findByIdAndUpdateOrFail s id upd o = Except.ok (u, s') →
    "password" ∉ Obj.keys u)

/-- The store enforces email uniqueness: once a create has succeeded, a create
with the same email on the state it left, of fields the store would have
accepted in its place, raises a failure with code 11000. -/
def Backend.UniqueEmail {σ : Type} (B : Backend σ) : Prop :=
  ∀ s f d s', B.create s f = Except.ok (d, s') →
    ∀ f' r', B.create s f' = Except.ok r' → Obj.get f' "email" = Obj.get f "email" →
      ∃ e, B.create s' f' = Except.error e ∧ e.code = JsVal.num 11000

/-- The signer returns a token for every payload under the configured secret and
the expiry `7d`. -/
def Backend.SignsAll {σ : Type} (B : Backend σ) (cfg : Config) : Prop :=
  ∀ payload, ∃ token, B.sign payload cfg.TOKEN_SECRET "7d" = Except.ok token

/-- The hasher law `verify(p, hash(p)) = true`. -/
def Backend.HashVerifies {σ : Type} (B : Backend σ) : Prop :=
  ∀ s p rounds h, B.hash s p rounds = Except.ok h → B.compare p (JsVal.str h) = Except.ok true

/-- The store returns what was created: after a successful create, the lookup by
the created email with the password selected finds a document with the id,
name, about, avatar and email of the created one and the password it was given. -/
def Backend.ReturnsCreated {σ : Type} (B : Backend σ) : Prop :=
  ∀ s f d s', B.create s f = Except.ok (d, s') →
    ∃ u, B.findOneSelectPassword s' [("email", Obj.get f "email")] = Except.ok (some u) ∧
      Obj.get u "_id" = Obj.get d "_id" ∧ Obj.get u "name" = Obj.get d "name" ∧
      Obj.get u "about" = Obj.get d "about" ∧ Obj.get u "avatar" = Obj.get d "avatar" ∧
      Obj.get u "email" = Obj.get d "email" ∧ Obj.get u "password" = Obj.get f "password"

/-! ## The signals the catch blocks test for -/

/-- The test `e.name === 'DocumentNotFoundError'`: the document-absent signal. -/
def JsError.isDocumentNotFound (e : JsError) : Bool :=
  decide (e.name = JsVal.str "DocumentNotFoundError")

/-- The test `e.name === 'CastError'`: the cast/shape signal. -/
def JsError.isCast (e : JsError) : Bool :=
  decide (e.name = JsVal.str "CastError")

/-- The test `e.name === 'ValidationError'`: the schema-validation signal. -/
def JsError.isValidation (e : JsError) : Bool :=
  decide (e.name = JsVal.str "ValidationError")

/-- The test `e.code === 11000`: the uniqueness-violation signal. -/
def JsError.isDuplicateKey (e : JsError) : Bool :=
  decide (e.code = JsVal.num 11000)

/-- The requests whose handler reads or writes one record in fail-if-absent mode. -/
def Request.isFailIfAbsent : Request → Bool
  | Request.getCurrentUser _ => true
  | Request.getUserById _ => true
  | Request.updateProfile _ _ => true
  | Request.updateAvatar _ _ => true
  | _ => false

/-- The two update requests. -/
def Request.isUpdate : Request → Bool
  | Request.updateProfile _ _ => true
  | Request.updateAvatar _ _ => true
  | _ => false

/-- The credentials of a login body are rejected: the lookup by its email finds
no user, or it finds one and the hasher's compare of its password against the
stored hash is false. -/
def LoginRejected {σ : Type} (B : Backend σ) (s : σ) (body : Obj) : Prop :=
  B.findOneSelectPassword s [("email", Obj.get body "email")] = Except.ok none ∨
  ∃ u, B.findOneSelectPassword s [("email", Obj.get body "email")] = Except.ok (some u) ∧
    B.compare (Obj.get body "password") (Obj.get u "password") = Except.ok false

/-- The translation policy in the spec's words, one table for every call site:
document absent gives `NotFound`, cast/shape or schema validation gives
`ValidationFailed`, uniqueness violation gives `Conflict`, anything else is
passed on (`none`). -/
def specPolicy (e : JsError) : Option ErrorClass :=
  if e.isDocumentNotFound = true then some ErrorClass.NotFoundError
  else if e.isCast = true ∨ e.isValidation = true then some ErrorClass.ValidationError
  else if e.isDuplicateKey = true then some ErrorClass.ConflictError
  else none

/-- The translation policy operation by operation: the class a failure caught
in the handler of the request is turned into, `none` when it is passed on
unchanged. -/
def operationPolicy (req : Request) (e : JsError) : Option ErrorClass :=
  match req with
  | Request.getAllUsers => none
  | Request.getCurrentUser _ | Request.getUserById _ =>
    if e.isDocumentNotFound = true then some ErrorClass.NotFoundError
    else if e.isCast = true then some ErrorClass.ValidationError
    else none
  | Request.createNewUser _ =>
    if e.isDuplicateKey = true then some ErrorClass.ConflictError
    else if e.isCast = true ∨ e.isValidation = true then some ErrorClass.ValidationError
    else none
  | Request.updateProfile _ _ | Request.updateAvatar _ _ =>
    if e.isDocumentNotFound = true then some ErrorClass.NotFoundError
    else if e.isCast = true ∨ e.isValidation = true then some ErrorClass.ValidationError
    else none
  | Request.login _ =>
    if e.isValidation = true then some ErrorClass.UnauthorizedError
    else none

/-- The catch block of the handler a request names. -/
def catchBlock : Request → JsError → NextArg
  | Request.getAllUsers, e => NextArg.passed e
  | Request.getCurrentUser _, e => getCurrentUserCatch e
  | Request.getUserById userId, e => getUserByIdCatch userId e
  | Request.createNewUser _, e => createNewUserCatch e
  | Request.updateProfile _ _, e => updateProfileCatch e
  | Request.updateAvatar _ _, e => updateAvatarCatch e
  | Request.login _, e => loginCatch e

/-- A collaborator call in the `try` block of the handler of a request raises
`e`.  The calls are those the handler awaits, in its order, each made only when
the ones before it returned: `find`; `findById(..).orFail()`; `bcrypt.hash` and
then `create`; `findByIdAndUpdate(..).orFail()`; in `login` the lookup, then the
compare when a user was found, then `jwt.sign` when the compare was true. -/
def Raises {σ : Type} (B : Backend σ) (cfg : Config) (s : σ) : Request → JsError → Prop
  | Request.getAllUsers, e => B.find s = Except.error e
  | Request.getCurrentUser _id, e => B.findByIdOrFail s _id = Except.error e
  | Request.getUserById userId, e => B.findByIdOrFail s (JsVal.str userId) = Except.error e
  | Request.createNewUser body, e =>
    B.hash s (Obj.get body "password") 10 = Except.error e ∨
    ∃ digest, B.hash s (Obj.get body "password") 10 = Except.ok digest ∧
      B.create s [("name", Obj.get body "name"), ("about", Obj.get body "about"),
        ("password", JsVal.str digest), ("email", Obj.get body "email"),
        ("avatar", Obj.get body "avatar")] = Except.error e
  | Request.updateProfile _id body, e =>
    B.findByIdAndUpdateOrFail s _id
      [("name", Obj.get body "name"), ("about", Obj.get body "about")] ⟨true, true⟩ =
        Except.error e
  | Request.updateAvatar _id body, e =>
    B.findByIdAndUpdateOrFail s _id [("avatar", Obj.get body "avatar")] ⟨true, true⟩ =
      Except.error e
  | Request.login body, e =>
    B.findOneSelectPassword s [("email", Obj.get body "email")] = Except.error e ∨
    ∃ u, B.findOneSelectPassword s [("email", Obj.get body "email")] = Except.ok (some u) ∧
      (B.compare (Obj.get body "password") (Obj.get u "password") = Except.error e ∨
        (B.compare (Obj.get body "password") (Obj.get u "password") = Except.ok true ∧
          B.sign [("_id", Obj.get u "_id")] cfg.TOKEN_SECRET "7d" = Except.error e))

/-- The message the handler of a request gives to a domain error of a class:
the string literal of the `new XError(...)` expressions, which is the same in
every handler but for the template literal of `getUserById`. -/
def messageOf : Request → ErrorClass → String
  | Request.getUserById userId, ErrorClass.NotFoundError =>
    "Пользователь c " ++ userId ++ " не найден"
  | _, ErrorClass.NotFoundError => "Пользователь не найден"
  | _, ErrorClass.ConflictError => "Пользователь с таким email уже существует"
  | _, ErrorClass.ValidationError => "Переданы некорректные данные"
  | _, ErrorClass.UnauthorizedError => "Переданы некорректные данные"

/-! ## Time spans -/

/-- Milliseconds of one unit letter of a time span. -/
def unitMs : Char → Option Nat
  | 'd' => some 86400000
  | 'h' => some 3600000
  | 'm' => some 60000
  | 's' => some 1000
  | _ => none

/-- Milliseconds denoted by a time span written as decimal digits followed by
one unit letter, the form `jsonwebtoken` reads `expiresIn: '7d'` in. -/
def timespanMs (t : String) : Option Nat :=
  match t.toList.reverse with
  | [] => none
  | u :: ds =>
    if ds ≠ [] ∧ ds.all Char.isDigit = true then
      (unitMs u).map (fun ms => ms * ds.reverse.foldl (fun n c => 10 * n + (c.toNat - 48)) 0)
    else none

/-! ## A backend whose every call raises -/

/-- The backend on which every collaborator call raises the failure `e`. -/
def raisingBackend (e : JsError) : Backend Unit where
  find _ := Except.error e
  findByIdOrFail _ _ := Except.error e
  create _ _ := Except.error e
  findByIdAndUpdateOrFail _ _ _ _ := Except.error e
  findOneSelectPassword _ _ := Except.error e
  hash _ _ _ := Except.error e
  compare _ _ := Except.error e
  sign _ _ _ := Except.error e

/-! ## An in-memory user store -/

/-- Modelled from the spec: the User entity of the data model (the mongoose
model `../models/user` is not among the sources). -/
structure UserRec where
  _id : String
  name : String
  about : String
  avatar : String
  email : String
  password : String
  deriving DecidableEq, Repr

/-- Modelled from the spec: the constraints the data model puts on the fields
without fixing them (which identifiers are well formed, the defaults, the
bounded lengths, the URL and email shapes), and how the store names a new
record. -/
structure Schema where
  idOk : JsVal → Bool
  freshId : Nat → String
  defaultName : String
  defaultAbout : String
  defaultAvatar : String
  nameOk : String → Bool
  aboutOk : String → Bool
  avatarOk : String → Bool
  emailOk : String → Bool

/-- Modelled from the spec: the state of the User Store, its records in
insertion order and the count of identifiers handed out. -/
structure MemStore where
  users : List UserRec
  counter : Nat
  deriving DecidableEq, Repr

/-- The "cast/shape" signal. -/
def castError : JsError :=
  ⟨JsVal.str "CastError", JsVal.undefined, "Cast failed"⟩

/-- The schema-validation signal. -/
def validationError : JsError :=
  ⟨JsVal.str "ValidationError", JsVal.undefined, "Validation failed"⟩

/-- The "document absent" signal of the fail-if-absent mode. -/
def documentNotFoundError : JsError :=
  ⟨JsVal.str "DocumentNotFoundError", JsVal.undefined, "No document found"⟩

/-- The uniqueness-violation signal. -/
def duplicateKeyError : JsError :=
  ⟨JsVal.str "MongoServerError", JsVal.num 11000, "E11000 duplicate key error"⟩

/-- The outbound representation of a record: every field but the hash. -/
def UserRec.toPublic (r : UserRec) : Obj :=
  [("_id", JsVal.str r._id), ("name", JsVal.str r.name), ("about", JsVal.str r.about),
   ("avatar", JsVal.str r.avatar), ("email", JsVal.str r.email)]

/-- The representation with the hash field selected. -/
def UserRec.withPassword (r : UserRec) : Obj :=
  r.toPublic ++ [("password", JsVal.str r.password)]

/-- Modelled from the spec: a field with a default ("default applied if absent"),
validated when given. -/
def optionalField (ok : String → Bool) (dflt : String) : JsVal → Except JsError String
  | JsVal.undefined => Except.ok dflt
  | JsVal.str v => if ok v = true then Except.ok v else Except.error validationError
  | _ => Except.error validationError

/-- Modelled from the spec: a field that must be given and valid. -/
def requiredField (ok : String → Bool) : JsVal → Except JsError String
  | JsVal.str v => if ok v = true then Except.ok v else Except.error validationError
  | _ => Except.error validationError

/-- Modelled from the spec: one path of an update, `none` when the update does
not set it; validated when `validate` is on. -/
def updateField (validate : Bool) (ok : String → Bool) : JsVal → Except JsError (Option String)
  | JsVal.undefined => Except.ok none
  | JsVal.str v =>
    if validate = true ∧ ok v = false then Except.error validationError
    else Except.ok (some v)
  | _ => Except.error castError

/-- Replaces the first record satisfying `p` by its image under `f`. -/
def updateFirst (p : UserRec → Bool) (f : UserRec → UserRec) : List UserRec → List UserRec
  | [] => []
  | r :: rs => if p r = true then f r :: rs else r :: updateFirst p f rs

/-- The paths an update sets, after casting: `none` for a path left alone. -/
structure Patch where
  name : Option String
  about : Option String
  avatar : Option String
  email : Option String
  password : Option String
  deriving DecidableEq, Repr

/-- A record with the paths of a patch replaced; the identifier stays. -/
def UserRec.assign (r : UserRec) (p : Patch) : UserRec :=
  ⟨r._id, p.name.getD r.name, p.about.getD r.about, p.avatar.getD r.avatar,
    p.email.getD r.email, p.password.getD r.password⟩

/-- Modelled from the spec: the record a create builds from its fields under the
identifier `id`: defaults applied, every field validated. -/
def newRecord (sch : Schema) (id : String) (fields : Obj) : Except JsError UserRec :=
  match optionalField sch.nameOk sch.defaultName (fields.get "name") with
  | Except.error e => Except.error e
  | Except.ok name =>
  match optionalField sch.aboutOk sch.defaultAbout (fields.get "about") with
  | Except.error e => Except.error e
  | Except.ok about =>
  match optionalField sch.avatarOk sch.defaultAvatar (fields.get "avatar") with
  | Except.error e => Except.error e
  | Except.ok avatar =>
  match requiredField sch.emailOk (fields.get "email") with
  | Except.error e => Except.error e
  | Except.ok email =>
  match requiredField (fun _ => true) (fields.get "password") with
  | Except.error e => Except.error e
  | Except.ok password => Except.ok ⟨id, name, about, avatar, email, password⟩

/-- Modelled from the spec: the patch an update object denotes, each path cast
and, when `validate` is on, validated as on creation. -/
def castUpdate (sch : Schema) (validate : Bool) (update : Obj) : Except JsError Patch :=
  match updateField validate sch.nameOk (update.get "name") with
  | Except.error e => Except.error e
  | Except.ok name =>
  match updateField validate sch.aboutOk (update.get "about") with
  | Except.error e => Except.error e
  | Except.ok about =>
  match updateField validate sch.avatarOk (update.get "avatar") with
  | Except.error e => Except.error e
  | Except.ok avatar =>
  match updateField validate sch.emailOk (update.get "email") with
  | Except.error e => Except.error e
  | Except.ok email =>
  match updateField validate (fun _ => true) (update.get "password") with
  | Except.error e => Except.error e
  | Except.ok password => Except.ok ⟨name, about, avatar, email, password⟩

namespace MemStore

/-- Modelled from the spec: `findAll() -> sequence of User`, sans hash each. -/
def find (s : MemStore) : Except JsError (List Obj) :=
  Except.ok (s.users.map UserRec.toPublic)

/-- Modelled from the spec: `findById(id, failIfAbsent)`: a malformed identifier
is a cast signal, a missing record a document-absent signal. -/
def findByIdOrFail (sch : Schema) (s : MemStore) (id : JsVal) : Except JsError Obj :=
  if sch.idOk id = true then
    match s.users.find? (fun r => decide (JsVal.str r._id = id)) with
    | some r => Except.ok r.toPublic
    | none => Except.error documentNotFoundError
  else Except.error castError

/-- Modelled from the spec: `create(fields) -> User | fails(Conflict|ValidationFailed)`:
the record is built and validated, a duplicate email is a uniqueness violation;
the created document is returned whole. -/
def create (sch : Schema) (s : MemStore) (fields : Obj) : Except JsError (Obj × MemStore) :=
  match newRecord sch (sch.freshId s.counter) fields with
  | Except.error e => Except.error e
  | Except.ok r =>
    if s.users.any (fun r' => decide (r'.email = r.email)) = true then
      Except.error duplicateKeyError
    else Except.ok (r.withPassword, ⟨s.users ++ [r], s.counter + 1⟩)

/-- Modelled from the spec: `updateById(id, fields, {validate, returnUpdated})` in
fail-if-absent mode: the identifier is cast, the update cast and validated, the
record looked up, the paths the update sets replaced. -/
def findByIdAndUpdateOrFail (sch : Schema) (s : MemStore) (id : JsVal) (update : Obj)
    (options : UpdateOptions) : Except JsError (Obj × MemStore) :=
  if sch.idOk id = true then
    match castUpdate sch options.runValidators update with
    | Except.error e => Except.error e
    | Except.ok patch =>
      match s.users.find? (fun r => decide (JsVal.str r._id = id)) with
      | none => Except.error documentNotFoundError
      | some old =>
        if s.users.any (fun r => decide (some r.email = patch.email ∧ r._id ≠ old._id)) = true then
          Except.error duplicateKeyError
        else
          Except.ok (if options.new = true then (old.assign patch).toPublic else old.toPublic,
            ⟨updateFirst (fun r => decide (JsVal.str r._id = id)) (fun r => r.assign patch)
              s.users, s.counter⟩)
  else Except.error castError

/-- Modelled from the spec: `findOne(filter, includeHash)` by email with the hash
field included. -/
def findOneSelectPassword (s : MemStore) (filter : Obj) : Except JsError (Option Obj) :=
  match filter.get "email" with
  | JsVal.str e =>
    Except.ok ((s.users.find? (fun r => decide (r.email = e))).map UserRec.withPassword)
  | _ => Except.ok none

end MemStore

/-- The hasher and the token signer, which the store does not provide. -/
structure Crypto where
  hash : JsVal → Nat → Except JsError String
  compare : JsVal → JsVal → Except JsError Bool
  sign : Obj → String → String → Except JsError String

/-- The backend made of the in-memory store and a hasher and signer. -/
def memBackend (sch : Schema) (K : Crypto) : Backend MemStore where
  find := MemStore.find
  findByIdOrFail := MemStore.findByIdOrFail sch
  create := MemStore.create sch
  findByIdAndUpdateOrFail := MemStore.findByIdAndUpdateOrFail sch
  findOneSelectPassword := MemStore.findOneSelectPassword
  hash _ data rounds := K.hash data rounds
  compare := K.compare
  sign := K.sign

/-! ## Sample instances -/

/-- Sample identifier shape: a string of 24 characters. -/
def sampleIdOk : JsVal → Bool
  | JsVal.str x => x.length == 24
  | _ => false

/-- Sample identifier of the `n`-th record: `n` in hexadecimal, padded to 24. -/
def sampleFreshId (n : Nat) : String :=
  String.mk (List.replicate (24 - (Nat.toDigits 16 n).length) '0' ++ Nat.toDigits 16 n)

/-- A sample schema: identifiers are 24 characters long, names and abouts 2 to
30, avatars start with `http`, emails hold an `@`. -/
def sampleSchema : Schema where
  idOk := sampleIdOk
  freshId := sampleFreshId
  defaultName := "Жак-Ив Кусто"
  defaultAbout := "Исследователь"
  defaultAvatar := "https://example.com/avatar.png"
  nameOk x := 2 ≤ x.length && x.length ≤ 30
  aboutOk x := 2 ≤ x.length && x.length ≤ 30
  avatarOk x := x.toList.take 4 == "http".toList
  emailOk x := x.toList.contains '@'

/-- Sample hasher: the digest is the plaintext behind a marker. -/
def sampleHash : JsVal → Nat → Except JsError String
  | JsVal.str p, _ => Except.ok ("$2b$" ++ p)
  | _, _ => Except.error ⟨JsVal.str "Error", JsVal.undefined, "data and salt arguments required"⟩

/-- Sample verifier of `sampleHash`. -/
def sampleCompare : JsVal → JsVal → Except JsError Bool
  | JsVal.str p, JsVal.str h => Except.ok (h == "$2b$" ++ p)
  | _, _ => Except.error ⟨JsVal.str "Error", JsVal.undefined, "data and hash arguments required"⟩

/-- Sample signer: the secret, the payload's `_id` when it is a string and the
expiry, dot-separated. -/
def sampleSign (payload : Obj) (secret expiresIn : String) : Except JsError String :=
  match Obj.get payload "_id" with
  | JsVal.str id => Except.ok (secret ++ "." ++ id ++ "." ++ expiresIn)
  | _ => Except.ok (secret ++ ".." ++ expiresIn)

/-- The sample hasher and signer. -/
def sampleCrypto : Crypto := ⟨sampleHash, sampleCompare, sampleSign⟩

/-- Sample constants: 200, 201 and a secret. -/
def sampleConfig : Config := ⟨200, 201, "secret"⟩

/-- The sample backend. -/
def sampleBackend : Backend MemStore := memBackend sampleSchema sampleCrypto

/-- The empty store. -/
def emptyStore : MemStore := ⟨[], 0⟩

/-- A registration body. -/
def aliceBody : Obj :=
  [("name", JsVal.str "Alice"), ("about", JsVal.str "Diver"),
   ("avatar", JsVal.str "https://example.com/a.png"),
   ("email", JsVal.str "a@example.com"), ("password", JsVal.str "correct")]

/-- The store after `createNewUser` of `aliceBody` on the empty store. -/
def aliceStore : MemStore := (createNewUser sampleBackend sampleConfig emptyStore aliceBody).state

/-- The identifier of the record in `aliceStore`. -/
def aliceId : String := "000000000000000000000000"

/-- A second registration body with the email of `aliceBody`. -/
def aliceAgainBody : Obj :=
  [("name", JsVal.str "Alice Again"), ("about", JsVal.str "Swimmer"),
   ("avatar", JsVal.str "https://example.com/b.png"),
   ("email", JsVal.str "a@example.com"), ("password", JsVal.str "other")]

/-! ## Theorems -/

/-! ### How a run ends -/

/-- A failure caught in a handler goes through that handler's catch block, and
the state stays as it was. -/
theorem handle_caught {σ : Type} (B : Backend σ) (cfg : Config) (s : σ) (req : Request)
    (e : JsError) (hc : (handle B cfg s req).caught = some e) :
    (handle B cfg s req).outcome = Outcome.next (catchBlock req e) ∧
      (handle B cfg s req).state = s := by
  cases req with
  | getAllUsers =>
    simp only [handle, getAllUsers] at hc ⊢
    split at hc <;> simp_all [catchBlock]
  | getCurrentUser id =>
    simp only [handle, getCurrentUser] at hc ⊢
    split at hc <;> simp_all [catchBlock]
  | getUserById userId =>
    simp only [handle, getUserById] at hc ⊢
    split at hc <;> simp_all [catchBlock]
  | createNewUser body =>
    simp only [handle, createNewUser] at hc ⊢
    split at hc
    · simp_all [catchBlock]
    · split at hc <;> simp_all [catchBlock]
  | updateProfile id body =>
    simp only [handle, updateProfile] at hc ⊢
    split at hc <;> simp_all [catchBlock]
  | updateAvatar id body =>
    simp only [handle, updateAvatar] at hc ⊢
    split at hc <;> simp_all [catchBlock]
  | login body =>
    simp only [handle, login] at hc ⊢
    split at hc
    · simp_all [catchBlock]
    · simp_all
    · split at hc
      · simp_all [catchBlock]
      · simp_all
      · split at hc <;> simp_all [catchBlock]

/-- A run that ends in `next` went through the catch block, or is a login that
rejected the credentials. -/
theorem handle_next {σ : Type} (B : Backend σ) (cfg : Config) (s : σ) (req : Request)
    (a : NextArg) (h : (handle B cfg s req).outcome = Outcome.next a) :
    (∃ e, (handle B cfg s req).caught = some e ∧ a = catchBlock req e) ∨
      ((∃ body, req = Request.login body) ∧
        a = NextArg.domain ErrorClass.UnauthorizedError "Переданы некорректные данные") := by
  cases req with
  | getAllUsers =>
    simp only [handle, getAllUsers] at h ⊢
    split at h <;> simp_all [catchBlock]
  | getCurrentUser id =>
    simp only [handle, getCurrentUser] at h ⊢
    split at h <;> simp_all [catchBlock]
  | getUserById userId =>
    simp only [handle, getUserById] at h ⊢
    split at h <;> simp_all [catchBlock]
  | createNewUser body =>
    simp only [handle, createNewUser] at h ⊢
    split at h
    · simp_all [catchBlock]
    · split at h <;> simp_all [catchBlock]
  | updateProfile id body =>
    simp only [handle, updateProfile] at h ⊢
    split at h <;> simp_all [catchBlock]
  | updateAvatar id body =>
    simp only [handle, updateAvatar] at h ⊢
    split at h <;> simp_all [catchBlock]
  | login body =>
    simp only [handle, login] at h ⊢
    split at h
    · simp_all [catchBlock]
    · simp_all
    · split at h
      · simp_all [catchBlock]
      · simp_all
      · split at h <;> simp_all [catchBlock]

/-- A failure a collaborator raises inside a handler is the failure the
handler's catch block receives, and the catch block receives no other. -/
theorem raises_iff_caught {σ : Type} (B : Backend σ) (cfg : Config) (s : σ) (req : Request)
    (e : JsError) : Raises B cfg s req e ↔ (handle B cfg s req).caught = some e := by
  cases req with
  | getAllUsers =>
    simp only [Raises, handle, getAllUsers]
    cases B.find s <;> simp
  | getCurrentUser id =>
    simp only [Raises, handle, getCurrentUser]
    cases B.findByIdOrFail s id <;> simp
  | getUserById userId =>
    simp only [Raises, handle, getUserById]
    cases B.findByIdOrFail s (JsVal.str userId) <;> simp
  | createNewUser body =>
    simp only [Raises, handle, createNewUser, createFields]
    cases B.hash s (Obj.get body "password") 10 with
    | error e' => simp
    | ok digest =>
      simp only [false_or, Except.ok.injEq, exists_eq_left', reduceCtorEq]
      cases B.create s [("name", Obj.get body "name"), ("about", Obj.get body "about"),
        ("password", JsVal.str digest), ("email", Obj.get body "email"),
        ("avatar", Obj.get body "avatar")] <;> simp
  | updateProfile id body =>
    simp only [Raises, handle, updateProfile, updateOptions]
    cases B.findByIdAndUpdateOrFail s id
      [("name", Obj.get body "name"), ("about", Obj.get body "about")] ⟨true, true⟩ <;> simp
  | updateAvatar id body =>
    simp only [Raises, handle, updateAvatar, updateOptions]
    cases B.findByIdAndUpdateOrFail s id [("avatar", Obj.get body "avatar")] ⟨true, true⟩ <;>
      simp
  | login body =>
    simp only [Raises, handle, login]
    cases B.findOneSelectPassword s [("email", Obj.get body "email")] with
    | error e' => simp
    | ok found =>
      cases found with
      | none => simp
      | some u =>
        simp only [false_or, Except.ok.injEq, Option.some.injEq, exists_eq_left',
          reduceCtorEq]
        cases B.compare (Obj.get body "password") (Obj.get u "password") with
        | error e' => simp
        | ok same =>
          cases same with
          | false => simp
          | true =>
            simp only [false_or, true_and, reduceCtorEq]
            cases B.sign [("_id", Obj.get u "_id")] cfg.TOKEN_SECRET "7d" <;> simp

theorem isCast_not_documentNotFound (e : JsError) (h : e.isCast = true) :
    e.isDocumentNotFound = false := by
  simp only [JsError.isCast, decide_eq_true_eq] at h
  simp [JsError.isDocumentNotFound, h]

theorem isValidation_not_documentNotFound (e : JsError) (h : e.isValidation = true) :
    e.isDocumentNotFound = false := by
  simp only [JsError.isValidation, decide_eq_true_eq] at h
  simp [JsError.isDocumentNotFound, h]

/-- The catch blocks of the four fail-if-absent handlers, by signal. -/
theorem catchBlock_failIfAbsent (req : Request) (e : JsError)
    (hreq : req.isFailIfAbsent = true) :
    catchBlock req e =
      if e.isDocumentNotFound = true then
        NextArg.domain ErrorClass.NotFoundError (messageOf req ErrorClass.NotFoundError)
      else if e.isCast = true ∨ (req.isUpdate = true ∧ e.isValidation = true) then
        NextArg.domain ErrorClass.ValidationError "Переданы некорректные данные"
      else NextArg.passed e := by
  cases req <;> simp only [Request.isFailIfAbsent, Bool.false_eq_true] at hreq <;>
    simp only [catchBlock, getCurrentUserCatch, getUserByIdCatch, updateProfileCatch,
      updateAvatarCatch, JsError.isDocumentNotFound, JsError.isCast, JsError.isValidation,
      Request.isUpdate, messageOf, decide_eq_true_eq, Bool.false_eq_true, false_and,
      or_false, true_and]

/-! ### The in-memory store -/

theorem requiredField_ok {ok : String → Bool} {v : JsVal} {x : String}
    (h : requiredField ok v = Except.ok x) : v = JsVal.str x := by
  cases v with
  | str y =>
    simp only [requiredField] at h
    split at h
    · simp only [Except.ok.injEq] at h
      rw [h]
    · simp at h
  | _ => simp [requiredField] at h

/-- A record built by `newRecord` carries the identifier it was given and the
email and password of the fields, and the same fields build the same record
under any other identifier. -/
theorem newRecord_ok {sch : Schema} {id : String} {fields : Obj} {r : UserRec}
    (h : newRecord sch id fields = Except.ok r) :
    r._id = id ∧ Obj.get fields "email" = JsVal.str r.email ∧
      Obj.get fields "password" = JsVal.str r.password ∧
      ∀ id', newRecord sch id' fields =
        Except.ok ⟨id', r.name, r.about, r.avatar, r.email, r.password⟩ := by
  unfold newRecord at h ⊢
  split at h
  · cases h
  split at h
  · cases h
  split at h
  · cases h
  split at h
  · cases h
  split at h
  · cases h
  rename_i name _ _ about _ _ avatar _ _ email he _ password hp
  cases h
  refine ⟨rfl, requiredField_ok he, requiredField_ok hp, ?_⟩
  intro id'
  simp_all

/-- What a successful create of the in-memory store did. -/
theorem MemStore.create_ok {sch : Schema} {s s' : MemStore} {fields d : Obj}
    (h : MemStore.create sch s fields = Except.ok (d, s')) :
    ∃ r, newRecord sch (sch.freshId s.counter) fields = Except.ok r ∧
      s.users.any (fun r' => decide (r'.email = r.email)) = false ∧
      d = r.withPassword ∧ s' = ⟨s.users ++ [r], s.counter + 1⟩ := by
  unfold MemStore.create at h
  split at h
  · cases h
  rename_i r hr
  split at h
  · cases h
  rename_i hany
  simp only [Except.ok.injEq, Prod.mk.injEq] at h
  exact ⟨r, hr, by simpa using hany, h.1.symm, h.2.symm⟩

theorem memBackend_uniqueEmail (sch : Schema) (K : Crypto) :
    (memBackend sch K).UniqueEmail := by
  intro s f d s' h f' r' h' hemail
  obtain ⟨d', s''⟩ := r'
  obtain ⟨r, hr, -, -, rfl⟩ := MemStore.create_ok h
  obtain ⟨r₂, hr₂, -, -, -⟩ := MemStore.create_ok h'
  obtain ⟨-, he, -, -⟩ := newRecord_ok hr
  obtain ⟨-, he₂, -, hid⟩ := newRecord_ok hr₂
  have hsame : r₂.email = r.email := by
    rw [hemail, he] at he₂
    exact (JsVal.str.inj he₂).symm
  refine ⟨duplicateKeyError, ?_, rfl⟩
  show MemStore.create sch _ f' = _
  unfold MemStore.create
  simp [hid, hsame]

theorem find?_append_singleton (p : UserRec → Bool) (l : List UserRec) (r : UserRec)
    (hl : l.any p = false) (hr : p r = true) : (l ++ [r]).find? p = some r := by
  induction l with
  | nil => simp [hr]
  | cons x xs ih =>
    simp only [List.any_cons, Bool.or_eq_false_iff] at hl
    simp [List.find?, hl.1, ih hl.2]

theorem memBackend_returnsCreated (sch : Schema) (K : Crypto) :
    (memBackend sch K).ReturnsCreated := by
  intro s f d s' h
  obtain ⟨r, hr, hany, rfl, rfl⟩ := MemStore.create_ok h
  obtain ⟨-, he, hp, -⟩ := newRecord_ok hr
  refine ⟨r.withPassword, ?_, rfl, rfl, rfl, rfl, rfl, ?_⟩
  · show MemStore.findOneSelectPassword _ _ = _
    simp only [MemStore.findOneSelectPassword, Obj.get, he, if_true]
    rw [find?_append_singleton _ _ _ hany (by simp)]
    rfl
  · rw [hp]
    simp [UserRec.withPassword, UserRec.toPublic, Obj.get]

theorem toPublic_keys (r : UserRec) : "password" ∉ Obj.keys r.toPublic := by
  simp [UserRec.toPublic, Obj.keys]

theorem memBackend_hidesPassword (sch : Schema) (K : Crypto) :
    (memBackend sch K).HidesPassword := by
  refine ⟨?_, ?_, ?_⟩
  · intro s us h u hu
    simp only [memBackend, MemStore.find, Except.ok.injEq] at h
    subst h
    obtain ⟨r, -, rfl⟩ := List.mem_map.1 hu
    exact toPublic_keys r
  · intro s id u h
    simp only [memBackend, MemStore.findByIdOrFail] at h
    split at h
    · split at h
      · cases h
        exact toPublic_keys _
      · cases h
    · cases h
  · intro s id upd o u s' h
    simp only [memBackend, MemStore.findByIdAndUpdateOrFail] at h
    split at h
    · split at h
      · cases h
      · split at h
        · cases h
        · split at h
          · cases h
          · simp only [Except.ok.injEq, Prod.mk.injEq] at h
            obtain ⟨rfl, -⟩ := h
            split <;> exact toPublic_keys _
    · cases h

theorem sampleBackend_hashVerifies : sampleBackend.HashVerifies := by
  intro s p rounds h hh
  cases p <;> simp [sampleBackend, memBackend, sampleCrypto, sampleHash] at hh
  subst hh
  simp [sampleBackend, memBackend, sampleCrypto, sampleCompare]

theorem sampleBackend_signsAll (cfg : Config) : sampleBackend.SignsAll cfg := by
  intro payload
  simp only [sampleBackend, memBackend, sampleCrypto, sampleSign]
  split <;> exact ⟨_, rfl⟩

/-! ### Updates of the in-memory store -/

theorem find?_updateFirst (p : UserRec → Bool) (f : UserRec → UserRec)
    (hp : ∀ r, p (f r) = p r) (l : List UserRec) :
    (updateFirst p f l).find? p = (l.find? p).map f := by
  induction l with
  | nil => rfl
  | cons x xs ih =>
    by_cases hx : p x = true
    · simp [updateFirst, List.find?, hx, hp]
    · simp [updateFirst, List.find?, hx, ih]

theorem updateFirst_idem (p : UserRec → Bool) (f : UserRec → UserRec)
    (hp : ∀ r, p (f r) = p r) (hf : ∀ r, f (f r) = f r) (l : List UserRec) :
    updateFirst p f (updateFirst p f l) = updateFirst p f l := by
  induction l with
  | nil => rfl
  | cons x xs ih =>
    by_cases hx : p x = true
    · simp [updateFirst, hx, hp, hf]
    · simp [updateFirst, hx, ih]

theorem map_updateFirst {α : Type} (g : UserRec → α) (p : UserRec → Bool)
    (f : UserRec → UserRec) (hg : ∀ r, g (f r) = g r) (l : List UserRec) :
    (updateFirst p f l).map g = l.map g := by
  induction l with
  | nil => rfl
  | cons x xs ih =>
    by_cases hx : p x = true
    · simp [updateFirst, hx, hg]
    · simp [updateFirst, hx, ih]

/-- What a successful fail-if-absent read of the in-memory store found. -/
theorem MemStore.findByIdOrFail_ok {sch : Schema} {s : MemStore} {id : JsVal} {u : Obj}
    (h : MemStore.findByIdOrFail sch s id = Except.ok u) :
    sch.idOk id = true ∧
      ∃ r, s.users.find? (fun r => decide (JsVal.str r._id = id)) = some r ∧ u = r.toPublic := by
  unfold MemStore.findByIdOrFail at h
  split at h
  · rename_i hid
    split at h
    · rename_i r hr
      simp only [Except.ok.injEq] at h
      exact ⟨hid, r, hr, h.symm⟩
    · cases h
  · cases h

/-- The patch of the update object `updateProfile` builds from a valid name and
about. -/
theorem castUpdate_profile (sch : Schema) (name about : String)
    (hn : sch.nameOk name = true) (ha : sch.aboutOk about = true) :
    castUpdate sch true [("name", JsVal.str name), ("about", JsVal.str about)] =
      Except.ok ⟨some name, some about, none, none, none⟩ := by
  simp [castUpdate, updateField, Obj.get, hn, ha]

/-- A patch cast from an update object with the keys name and about only sets
neither avatar, email nor password. -/
theorem castUpdate_profile_frame {sch : Schema} {v : Bool} {x y : JsVal} {patch : Patch}
    (h : castUpdate sch v [("name", x), ("about", y)] = Except.ok patch) :
    patch.avatar = none ∧ patch.email = none ∧ patch.password = none := by
  unfold castUpdate at h
  split at h
  · cases h
  split at h
  · cases h
  simp [updateField, Obj.get] at h
  subst h
  exact ⟨rfl, rfl, rfl⟩

/-- A patch cast from an update object with the key avatar only sets neither
name, about, email nor password. -/
theorem castUpdate_avatar_frame {sch : Schema} {v : Bool} {x : JsVal} {patch : Patch}
    (h : castUpdate sch v [("avatar", x)] = Except.ok patch) :
    patch.name = none ∧ patch.about = none ∧ patch.email = none ∧ patch.password = none := by
  unfold castUpdate at h
  simp only [Obj.get, updateField] at h
  simp at h
  split at h
  · cases h
  simp at h
  subst h
  exact ⟨rfl, rfl, rfl, rfl⟩

/-- What a successful update of the in-memory store did to the state. -/
theorem MemStore.findByIdAndUpdateOrFail_ok {sch : Schema} {s s' : MemStore} {id : JsVal}
    {update u : Obj} {o : UpdateOptions}
    (h : MemStore.findByIdAndUpdateOrFail sch s id update o = Except.ok (u, s')) :
    ∃ patch, castUpdate sch o.runValidators update = Except.ok patch ∧
      s' = ⟨updateFirst (fun r => decide (JsVal.str r._id = id)) (fun r => r.assign patch)
        s.users, s.counter⟩ := by
  unfold MemStore.findByIdAndUpdateOrFail at h
  split at h
  · split at h
    · cases h
    · rename_i patch hpatch
      split at h
      · cases h
      · split at h
        · cases h
        · simp only [Except.ok.injEq, Prod.mk.injEq] at h
          exact ⟨patch, hpatch, h.2.symm⟩
  · cases h

/-- The update `updateProfile` asks for, on a record that exists, with a valid
name and about. -/
theorem MemStore.update_profile_ok (sch : Schema) (s : MemStore) (id : JsVal) (r : UserRec)
    (name about : String) (hid : sch.idOk id = true)
    (hr : s.users.find? (fun r => decide (JsVal.str r._id = id)) = some r)
    (hn : sch.nameOk name = true) (ha : sch.aboutOk about = true) :
    MemStore.findByIdAndUpdateOrFail sch s id
        [("name", JsVal.str name), ("about", JsVal.str about)] updateOptions =
      Except.ok ((r.assign ⟨some name, some about, none, none, none⟩).toPublic,
        ⟨updateFirst (fun r => decide (JsVal.str r._id = id))
          (fun r => r.assign ⟨some name, some about, none, none, none⟩) s.users, s.counter⟩) := by
  unfold MemStore.findByIdAndUpdateOrFail
  simp [hid, updateOptions, castUpdate_profile sch name about hn ha, hr]

/-! ### The claims -/

/-- C1: a login whose credentials are rejected, for lack of a user with the
email or because the password does not compare to the stored hash, ends with
`next` on an `UnauthorizedError` whose message is one fixed string, so every
two rejected logins end alike; it signs no token, and ending in `next` it sets
no cookie and sends no body. -/
theorem login_rejected_uniform {σ : Type} (B : Backend σ) (cfg : Config) (s : σ) (body : Obj)
    (h : LoginRejected B s body) :
    (login B cfg s body).outcome =
        Outcome.next (NextArg.domain ErrorClass.UnauthorizedError "Переданы некорректные данные") ∧
      (∀ c ∈ (login B cfg s body).calls, Call.isSign c = false) ∧
      (∀ r, (login B cfg s body).outcome ≠ Outcome.sent r) ∧
      (login B cfg s body).state = s ∧
      (∀ (s' : σ) (body' : Obj), LoginRejected B s' body' →
        (login B cfg s' body').outcome = (login B cfg s body).outcome) := by
  have key : ∀ (s : σ) (body : Obj), LoginRejected B s body →
      (login B cfg s body).outcome =
        Outcome.next (NextArg.domain ErrorClass.UnauthorizedError "Переданы некорректные данные") ∧
      (∀ c ∈ (login B cfg s body).calls, Call.isSign c = false) ∧
      (login B cfg s body).state = s := by
    intro s body h
    rcases h with h | ⟨u, h1, h2⟩
    · simp [login, h, Call.isSign]
    · simp [login, h1, h2, Call.isSign]
  obtain ⟨h1, h2, h3⟩ := key s body h
  refine ⟨h1, h2, ?_, h3, ?_⟩
  · intro r hr
    rw [h1] at hr
    cases hr
  · intro s' body' h'
    rw [h1, (key s' body' h').1]

/-- Witness of C1: the wrong password for a registered email, and an email
nobody registered, end alike. -/
theorem login_rejected_uniform_witness :
    (LoginRejected sampleBackend aliceStore
        [("email", JsVal.str "a@example.com"), ("password", JsVal.str "wrong")] ∧
      (login sampleBackend sampleConfig aliceStore
        [("email", JsVal.str "a@example.com"), ("password", JsVal.str "wrong")]).outcome =
        Outcome.next (NextArg.domain ErrorClass.UnauthorizedError
          "Переданы некорректные данные")) ∧
    (LoginRejected sampleBackend aliceStore
        [("email", JsVal.str "b@example.com"), ("password", JsVal.str "correct")] ∧
      (login sampleBackend sampleConfig aliceStore
        [("email", JsVal.str "b@example.com"), ("password", JsVal.str "correct")]).outcome =
        Outcome.next (NextArg.domain ErrorClass.UnauthorizedError
          "Переданы некорректные данные")) :=
  have h₁ : LoginRejected sampleBackend aliceStore
      [("email", JsVal.str "a@example.com"), ("password", JsVal.str "wrong")] :=
    Or.inr ⟨_, rfl, rfl⟩
  have h₂ : LoginRejected sampleBackend aliceStore
      [("email", JsVal.str "b@example.com"), ("password", JsVal.str "correct")] :=
    Or.inl rfl
  ⟨⟨h₁, (login_rejected_uniform sampleBackend sampleConfig aliceStore _ h₁).1⟩,
    ⟨h₂, (login_rejected_uniform sampleBackend sampleConfig aliceStore _ h₂).1⟩⟩

/-- C2, as stated, fails: the store raises the schema-validation failure on an
`updateProfile` with a one-letter name; the failure is neither the
document-absent nor the cast signal, and `updateProfile` does not hand it on. -/
theorem update_validation_not_handed_on :
    sampleBackend.findByIdAndUpdateOrFail aliceStore (JsVal.str aliceId)
        [("name", JsVal.str "x"), ("about", JsVal.str "Diver")] ⟨true, true⟩ =
        Except.error validationError ∧
      validationError.isDocumentNotFound = false ∧ validationError.isCast = false ∧
      (updateProfile sampleBackend sampleConfig aliceStore (JsVal.str aliceId)
          [("name", JsVal.str "x"), ("about", JsVal.str "Diver")]).outcome =
        Outcome.next (NextArg.domain ErrorClass.ValidationError
          "Переданы некорректные данные") ∧
      (updateProfile sampleBackend sampleConfig aliceStore (JsVal.str aliceId)
          [("name", JsVal.str "x"), ("about", JsVal.str "Diver")]).outcome ≠
        Outcome.next (NextArg.passed validationError) :=
  ⟨rfl, rfl, rfl, rfl, by decide⟩

/-- C2, amended: when the fail-if-absent store call of `getCurrentUser`,
`getUserById`, `updateProfile` or `updateAvatar` raises `e`, a document-absent
signal ends in `NotFoundError`, a cast signal in `ValidationError`, in the two
update handlers a schema-validation signal in `ValidationError` too, and every
other failure is handed to `next` as the same object; no response is sent, the
state is left alone, and the outcomes of two such runs differ whenever one
failure is document-absent and the other is not, or one is a cast signal and
the other is handed on. -/
theorem fail_if_absent_three_way {σ : Type} (B : Backend σ) (cfg : Config) (s : σ)
    (req : Request) (e : JsError) (hreq : req.isFailIfAbsent = true)
    (hr : Raises B cfg s req e) :
    (e.isDocumentNotFound = true →
        ∃ msg, (handle B cfg s req).outcome =
          Outcome.next (NextArg.domain ErrorClass.NotFoundError msg)) ∧
      (e.isCast = true → (handle B cfg s req).outcome =
          Outcome.next (NextArg.domain ErrorClass.ValidationError "Переданы некорректные данные")) ∧
      (req.isUpdate = true → e.isValidation = true → (handle B cfg s req).outcome =
          Outcome.next (NextArg.domain ErrorClass.ValidationError "Переданы некорректные данные")) ∧
      (e.isDocumentNotFound = false → e.isCast = false →
        (req.isUpdate = true → e.isValidation = false) →
          (handle B cfg s req).outcome = Outcome.next (NextArg.passed e)) ∧
      (∀ r, (handle B cfg s req).outcome ≠ Outcome.sent r) ∧
      (handle B cfg s req).state = s ∧
      (∀ (s' : σ) (req' : Request) (e' : JsError), req'.isFailIfAbsent = true →
        Raises B cfg s' req' e' →
        (e.isDocumentNotFound = true → e'.isDocumentNotFound = false →
          (handle B cfg s req).outcome ≠ (handle B cfg s' req').outcome) ∧
        (e.isCast = true → e'.isDocumentNotFound = false → e'.isCast = false →
          (req'.isUpdate = true → e'.isValidation = false) →
          (handle B cfg s req).outcome ≠ (handle B cfg s' req').outcome)) := by
  obtain ⟨ho, hs⟩ := handle_caught B cfg s req e ((raises_iff_caught B cfg s req e).1 hr)
  rw [ho, catchBlock_failIfAbsent req e hreq]
  refine ⟨?_, ?_, ?_, ?_, ?_, hs, ?_⟩
  · intro h
    exact ⟨messageOf req ErrorClass.NotFoundError, by simp [h]⟩
  · intro h
    simp [h, isCast_not_documentNotFound e h]
  · intro hu h
    simp [h, hu, isValidation_not_documentNotFound e h]
  · intro h1 h2 h3
    by_cases hu : req.isUpdate = true
    · simp [h1, h2, hu, h3 hu]
    · simp [h1, h2, hu]
  · intro r h
    split_ifs at h
  · intro s' req' e' hreq' hr'
    obtain ⟨ho', -⟩ :=
      handle_caught B cfg s' req' e' ((raises_iff_caught B cfg s' req' e').1 hr')
    rw [ho', catchBlock_failIfAbsent req' e' hreq']
    constructor
    · intro h h'
      simp only [h, h', if_true, Bool.false_eq_true, if_false]
      split_ifs <;> simp
    · intro h h1 h2 h3
      have hv : ¬ (e'.isCast = true ∨ (req'.isUpdate = true ∧ e'.isValidation = true)) := by
        rintro (hc | ⟨hu, hv⟩)
        · simp [h2] at hc
        · simp [h3 hu] at hv
      simp [h, isCast_not_documentNotFound e h, h1, hv]

/-- Witness of C2: `getUserById("not-a-valid-id-shape")` over the sample store,
which raises the cast signal. -/
theorem fail_if_absent_three_way_witness :
    sampleBackend.findByIdOrFail aliceStore (JsVal.str "not-a-valid-id-shape") =
        Except.error castError ∧
      (handle sampleBackend sampleConfig aliceStore
        (Request.getUserById "not-a-valid-id-shape")).outcome =
      Outcome.next (NextArg.domain ErrorClass.ValidationError "Переданы некорректные данные") :=
  ⟨rfl, (fail_if_absent_three_way sampleBackend sampleConfig aliceStore
    (Request.getUserById "not-a-valid-id-shape") castError rfl
    (show sampleBackend.findByIdOrFail aliceStore (JsVal.str "not-a-valid-id-shape") =
      Except.error castError from rfl)).2.1 rfl⟩

/-- C3, as stated, fails: when the store's `find` raises a cast signal,
`getAllUsers` passes it on unchanged where the one policy asks for
`ValidationFailed`; and when the lookup of `login` raises a schema-validation
signal, `login` ends in `UnauthorizedError`. -/
theorem uniform_policy_counterexample :
    ((raisingBackend castError).find () = Except.error castError ∧
      specPolicy castError = some ErrorClass.ValidationError ∧
      (getAllUsers (raisingBackend castError) sampleConfig ()).outcome =
        Outcome.next (NextArg.passed castError)) ∧
    ((raisingBackend validationError).findOneSelectPassword ()
        [("email", JsVal.str "a@example.com")] = Except.error validationError ∧
      specPolicy validationError = some ErrorClass.ValidationError ∧
      (login (raisingBackend validationError) sampleConfig ()
          [("email", JsVal.str "a@example.com"), ("password", JsVal.str "correct")]).outcome =
        Outcome.next (NextArg.domain ErrorClass.UnauthorizedError
          "Переданы некорректные данные")) :=
  ⟨⟨rfl, rfl, rfl⟩, ⟨rfl, rfl, rfl⟩⟩

/-- C3, amended: the translation differs by operation.  When a store, hasher or
signer call of a handler raises `e`, the handler ends in `next` on a domain
error of the class `operationPolicy` gives for that operation (`getAllUsers`
translates nothing; `getCurrentUser` and `getUserById` document absent and
cast; `createNewUser` code 11000 first, then cast and schema validation; the
two updates document absent, cast and schema validation; `login` schema
validation, into `UnauthorizedError`) and otherwise hands `e` to `next` as the
same object; a failure that carries none of the four signals is handed on
unchanged by all seven, and the state is left alone. -/
theorem translation_by_operation {σ : Type} (B : Backend σ) (cfg : Config) (s : σ)
    (req : Request) (e : JsError) (hr : Raises B cfg s req e) :
    (∀ cls, operationPolicy req e = some cls →
        ∃ msg, (handle B cfg s req).outcome = Outcome.next (NextArg.domain cls msg)) ∧
      (operationPolicy req e = none →
        (handle B cfg s req).outcome = Outcome.next (NextArg.passed e)) ∧
      (specPolicy e = none →
        (handle B cfg s req).outcome = Outcome.next (NextArg.passed e)) ∧
      (handle B cfg s req).state = s := by
  obtain ⟨ho, hs⟩ := handle_caught B cfg s req e ((raises_iff_caught B cfg s req e).1 hr)
  rw [ho]
  refine ⟨?_, ?_, ?_, hs⟩
  · intro cls
    cases req <;>
      simp only [operationPolicy, catchBlock, getCurrentUserCatch, getUserByIdCatch,
        createNewUserCatch, updateProfileCatch, updateAvatarCatch, loginCatch,
        JsError.isDocumentNotFound, JsError.isCast, JsError.isValidation,
        JsError.isDuplicateKey, decide_eq_true_eq] <;>
      (try split_ifs) <;> simp
  · cases req <;>
      simp only [operationPolicy, catchBlock, getCurrentUserCatch, getUserByIdCatch,
        createNewUserCatch, updateProfileCatch, updateAvatarCatch, loginCatch,
        JsError.isDocumentNotFound, JsError.isCast, JsError.isValidation,
        JsError.isDuplicateKey, decide_eq_true_eq] <;>
      (try split_ifs) <;> simp
  · intro hp
    simp only [specPolicy, JsError.isDocumentNotFound, JsError.isCast, JsError.isValidation,
      JsError.isDuplicateKey, decide_eq_true_eq] at hp
    split_ifs at hp with h1 h2 h3
    cases req <;>
      simp only [catchBlock, getCurrentUserCatch, getUserByIdCatch,
        createNewUserCatch, updateProfileCatch, updateAvatarCatch, loginCatch] <;>
      simp_all

/-- Witness of C3: a second registration with a registered email over the sample
store, whose `create` raises the duplicate-key failure. -/
theorem translation_by_operation_witness :
    Raises sampleBackend sampleConfig aliceStore (Request.createNewUser aliceAgainBody)
        duplicateKeyError ∧
      ∃ msg, (handle sampleBackend sampleConfig aliceStore
        (Request.createNewUser aliceAgainBody)).outcome =
          Outcome.next (NextArg.domain ErrorClass.ConflictError msg) :=
  have h : Raises sampleBackend sampleConfig aliceStore (Request.createNewUser aliceAgainBody)
      duplicateKeyError := Or.inr ⟨"$2b$other", rfl, rfl⟩
  ⟨h, (translation_by_operation sampleBackend sampleConfig aliceStore
    (Request.createNewUser aliceAgainBody) duplicateKeyError h).1 ErrorClass.ConflictError rfl⟩

/-- C9, as stated, fails: two `getUserById` requests that both end in
`NotFoundError` carry different messages, each embedding the requested id. -/
theorem not_found_message_embeds_id :
    (handle (raisingBackend documentNotFoundError) sampleConfig ()
        (Request.getUserById "aaa")).outcome =
        Outcome.next (NextArg.domain ErrorClass.NotFoundError "Пользователь c aaa не найден") ∧
      (handle (raisingBackend documentNotFoundError) sampleConfig ()
        (Request.getUserById "bbb")).outcome =
        Outcome.next (NextArg.domain ErrorClass.NotFoundError "Пользователь c bbb не найден") ∧
      "Пользователь c aaa не найден" ≠ "Пользователь c bbb не найден" := by
  decide

/-- C9, amended: the message of a domain error is fixed by the operation and the
class alone, one constant string for every request, except the `NotFoundError`
of `getUserById`, whose message embeds the requested `userId`; no message holds
anything of the underlying failure. -/
theorem domain_error_messages {σ : Type} (B : Backend σ) (cfg : Config) (s : σ)
    (req : Request) (cls : ErrorClass) (msg : String)
    (h : (handle B cfg s req).outcome = Outcome.next (NextArg.domain cls msg)) :
    msg = messageOf req cls ∧
      ((∀ userId, req ≠ Request.getUserById userId) ∨ cls ≠ ErrorClass.NotFoundError →
        msg = messageOf Request.getAllUsers cls) := by
  have hm : msg = messageOf req cls := by
    rcases handle_next B cfg s req _ h with ⟨e, -, he⟩ | ⟨⟨body, rfl⟩, he⟩
    · cases req <;>
        simp only [catchBlock, getCurrentUserCatch, getUserByIdCatch,
          createNewUserCatch, updateProfileCatch, updateAvatarCatch, loginCatch] at he <;>
        (try split_ifs at he) <;> simp at he <;> obtain ⟨rfl, rfl⟩ := he <;> rfl
    · simp at he
      obtain ⟨rfl, rfl⟩ := he
      rfl
  refine ⟨hm, ?_⟩
  intro hne
  rw [hm]
  cases req <;> cases cls <;> simp_all [messageOf]

/-- Witness of C9: the `ConflictError` of `createNewUser`. -/
theorem domain_error_messages_witness :
    (handle (raisingBackend duplicateKeyError) sampleConfig ()
        (Request.createNewUser aliceBody)).outcome =
        Outcome.next (NextArg.domain ErrorClass.ConflictError
          "Пользователь с таким email уже существует") ∧
      "Пользователь с таким email уже существует" =
        messageOf (Request.createNewUser aliceBody) ErrorClass.ConflictError :=
  ⟨rfl, (domain_error_messages (raisingBackend duplicateKeyError) sampleConfig ()
    (Request.createNewUser aliceBody) ErrorClass.ConflictError _ rfl).1⟩

/-- C5: when hashing and the store's create succeed, `createNewUser` calls the
hasher on the body's password with cost 10, gives the store the fields name,
about, email, avatar of the body and, as password, the digest the hasher
returned, and answers with the created status and a body of exactly the four
keys name, about, email, avatar read from the record the store returned; the
body has no `password` and no `_id` key. -/
theorem createNewUser_success {σ : Type} (B : Backend σ) (cfg : Config) (s s' : σ)
    (body newUser : Obj) (digest : String)
    (hh : B.hash s (Obj.get body "password") 10 = Except.ok digest)
    (hs : B.create s [("name", Obj.get body "name"), ("about", Obj.get body "about"),
        ("password", JsVal.str digest), ("email", Obj.get body "email"),
        ("avatar", Obj.get body "avatar")] = Except.ok (newUser, s')) :
    (createNewUser B cfg s body).calls =
        [Call.bcryptHash (Obj.get body "password") 10,
         Call.create [("name", Obj.get body "name"), ("about", Obj.get body "about"),
           ("password", JsVal.str digest), ("email", Obj.get body "email"),
           ("avatar", Obj.get body "avatar")]] ∧
      (createNewUser B cfg s body).outcome =
        Outcome.sent ⟨some cfg.SUCCESS_CREATED_CODE, [],
          Body.doc [("name", Obj.get newUser "name"), ("about", Obj.get newUser "about"),
            ("email", Obj.get newUser "email"), ("avatar", Obj.get newUser "avatar")]⟩ ∧
      (∀ r, (createNewUser B cfg s body).outcome = Outcome.sent r →
        r.body.hasKey "password" = false ∧ r.body.hasKey "_id" = false) ∧
      (createNewUser B cfg s body).state = s' := by
  refine ⟨?_, ?_, ?_, ?_⟩ <;>
    simp [createNewUser, createFields, createdBody, hh, hs]
  simp [Body.hasKey, Obj.keys]

/-- Witness of C5: registering `aliceBody` on the empty store. -/
theorem createNewUser_success_witness :
    (createNewUser sampleBackend sampleConfig emptyStore aliceBody).calls =
      [Call.bcryptHash (JsVal.str "correct") 10,
       Call.create [("name", JsVal.str "Alice"), ("about", JsVal.str "Diver"),
         ("password", JsVal.str "$2b$correct"), ("email", JsVal.str "a@example.com"),
         ("avatar", JsVal.str "https://example.com/a.png")]] :=
  (createNewUser_success sampleBackend sampleConfig emptyStore aliceStore aliceBody
    (UserRec.withPassword ⟨aliceId, "Alice", "Diver", "https://example.com/a.png",
      "a@example.com", "$2b$correct"⟩) "$2b$correct" rfl rfl).1

/-- C7: when the lookup by email finds a user, the compare is true and the
signer returns, `login` has signed the payload holding the matched user's `_id`
with the secret and the expiry `7d`, sets the cookie `jwt` to that token with
`maxAge` 604800000 (the 7 days `7d` denotes), `httpOnly`, `secure` and `sameSite`
`None`, and sends a body of exactly `_id`, name, about, avatar, email of the
matched user. -/
theorem login_success {σ : Type} (B : Backend σ) (cfg : Config) (s : σ) (body u : Obj)
    (token : String)
    (hf : B.findOneSelectPassword s [("email", Obj.get body "email")] = Except.ok (some u))
    (hv : B.compare (Obj.get body "password") (Obj.get u "password") = Except.ok true)
    (ht : B.sign [("_id", Obj.get u "_id")] cfg.TOKEN_SECRET "7d" = Except.ok token) :
    (login B cfg s body).calls =
        [Call.findOneSelectPassword [("email", Obj.get body "email")],
         Call.bcryptCompare (Obj.get body "password") (Obj.get u "password"),
         Call.jwtSign [("_id", Obj.get u "_id")] cfg.TOKEN_SECRET "7d"] ∧
      (login B cfg s body).outcome =
        Outcome.sent ⟨none, [⟨"jwt", token, ⟨604800000, true, true, "None"⟩⟩],
          Body.doc [("_id", Obj.get u "_id"), ("name", Obj.get u "name"),
            ("about", Obj.get u "about"), ("avatar", Obj.get u "avatar"),
            ("email", Obj.get u "email")]⟩ ∧
      timespanMs "7d" = some loginCookieOptions.maxAge ∧
      loginCookieOptions.maxAge = 7 * 24 * 60 * 60 * 1000 ∧
      (login B cfg s body).state = s := by
  refine ⟨?_, ?_, ?_, ?_, ?_⟩
  · simp [login, hf, hv, ht]
  · simp [login, hf, hv, ht, loginBody, loginCookieOptions]
  · decide
  · decide
  · simp [login, hf, hv, ht]

/-- Witness of C7: the right password for the registered email. -/
theorem login_success_witness :
    (login sampleBackend sampleConfig aliceStore
        [("email", JsVal.str "a@example.com"), ("password", JsVal.str "correct")]).outcome =
      Outcome.sent ⟨none,
        [⟨"jwt", "secret.000000000000000000000000.7d", ⟨604800000, true, true, "None"⟩⟩],
        Body.doc [("_id", JsVal.str aliceId), ("name", JsVal.str "Alice"),
          ("about", JsVal.str "Diver"), ("avatar", JsVal.str "https://example.com/a.png"),
          ("email", JsVal.str "a@example.com")]⟩ :=
  (login_success sampleBackend sampleConfig aliceStore
    [("email", JsVal.str "a@example.com"), ("password", JsVal.str "correct")]
    (UserRec.withPassword ⟨aliceId, "Alice", "Diver", "https://example.com/a.png",
      "a@example.com", "$2b$correct"⟩) "secret.000000000000000000000000.7d" rfl rfl rfl).2.1

/-- C4: over a store that enforces email uniqueness, when the first registration
is hashed and accepted by the store and a second one with the same email is
hashed and would have been accepted in its place, the first `createNewUser`
answers with the created status and the second ends in `ConflictError`; when
the store's create raises a failure whose name is `CastError` or
`ValidationError` and whose code is not 11000, `createNewUser` ends in
`ValidationError`; and when it raises a failure whose code is 11000,
`createNewUser` ends in `ConflictError` whatever the name. -/
theorem createNewUser_conflict {σ : Type} (B : Backend σ) (cfg : Config) :
    (B.UniqueEmail → ∀ (s s₁ : σ) (body₁ body₂ d : Obj) (h₁ h₂ : String) (r₂ : Obj × σ),
        B.hash s (Obj.get body₁ "password") 10 = Except.ok h₁ →
        B.create s (createFields body₁ h₁) = Except.ok (d, s₁) →
        Obj.get body₂ "email" = Obj.get body₁ "email" →
        B.hash s₁ (Obj.get body₂ "password") 10 = Except.ok h₂ →
        B.create s (createFields body₂ h₂) = Except.ok r₂ →
        (createNewUser B cfg s body₁).outcome =
            Outcome.sent ⟨some cfg.SUCCESS_CREATED_CODE, [], Body.doc (createdBody d)⟩ ∧
          (createNewUser B cfg s body₁).state = s₁ ∧
          (createNewUser B cfg s₁ body₂).outcome =
            Outcome.next (NextArg.domain ErrorClass.ConflictError
              "Пользователь с таким email уже существует") ∧
          (createNewUser B cfg s₁ body₂).state = s₁) ∧
      (∀ (s : σ) (body : Obj) (digest : String) (e : JsError),
        B.hash s (Obj.get body "password") 10 = Except.ok digest →
        B.create s [("name", Obj.get body "name"), ("about", Obj.get body "about"),
          ("password", JsVal.str digest), ("email", Obj.get body "email"),
          ("avatar", Obj.get body "avatar")] = Except.error e →
        e.isCast = true ∨ e.isValidation = true → e.isDuplicateKey = false →
        (createNewUser B cfg s body).outcome =
            Outcome.next (NextArg.domain ErrorClass.ValidationError
              "Переданы некорректные данные") ∧
          (createNewUser B cfg s body).state = s) ∧
      (∀ (s : σ) (body : Obj) (digest : String) (e : JsError),
        B.hash s (Obj.get body "password") 10 = Except.ok digest →
        B.create s [("name", Obj.get body "name"), ("about", Obj.get body "about"),
          ("password", JsVal.str digest), ("email", Obj.get body "email"),
          ("avatar", Obj.get body "avatar")] = Except.error e →
        e.isDuplicateKey = true →
        (createNewUser B cfg s body).outcome =
            Outcome.next (NextArg.domain ErrorClass.ConflictError
              "Пользователь с таким email уже существует") ∧
          (createNewUser B cfg s body).state = s) := by
  refine ⟨?_, ?_, ?_⟩
  · intro hU s s₁ body₁ body₂ d h₁ h₂ r₂ hh₁ hc₁ hemail hh₂ hc₂
    have hemail' : Obj.get (createFields body₂ h₂) "email" =
        Obj.get (createFields body₁ h₁) "email" := by
      simpa [createFields, Obj.get] using hemail
    obtain ⟨e, he, hcode⟩ := hU s _ d s₁ hc₁ _ r₂ hc₂ hemail'
    refine ⟨?_, ?_, ?_, ?_⟩
    · simp [createNewUser, hh₁, hc₁]
    · simp [createNewUser, hh₁, hc₁]
    · simp [createNewUser, hh₂, he, createNewUserCatch, hcode]
    · simp [createNewUser, hh₂, he]
  · intro s body digest e hh hc hname hcode
    simp only [JsError.isCast, JsError.isValidation, JsError.isDuplicateKey,
      decide_eq_true_eq, decide_eq_false_iff_not] at hname hcode
    simp [createNewUser, createFields, hh, hc, createNewUserCatch, hname, hcode]
  · intro s body digest e hh hc hcode
    simp only [JsError.isDuplicateKey, decide_eq_true_eq] at hcode
    simp [createNewUser, createFields, hh, hc, createNewUserCatch, hcode]

/-- Witness of C4: `aliceBody` registered on the empty store, then
`aliceAgainBody` with the same email; and a registration with a one-letter
name, on which the store's create raises the schema-validation failure. -/
theorem createNewUser_conflict_witness :
    ((createNewUser sampleBackend sampleConfig emptyStore aliceBody).outcome =
        Outcome.sent ⟨some 201, [], Body.doc [("name", JsVal.str "Alice"),
          ("about", JsVal.str "Diver"), ("email", JsVal.str "a@example.com"),
          ("avatar", JsVal.str "https://example.com/a.png")]⟩ ∧
      (createNewUser sampleBackend sampleConfig aliceStore aliceAgainBody).outcome =
        Outcome.next (NextArg.domain ErrorClass.ConflictError
          "Пользователь с таким email уже существует")) ∧
    (sampleBackend.create emptyStore [("name", JsVal.str "x"), ("about", JsVal.undefined),
        ("password", JsVal.str "$2b$pw"), ("email", JsVal.str "c@example.com"),
        ("avatar", JsVal.undefined)] = Except.error validationError ∧
      (createNewUser sampleBackend sampleConfig emptyStore
          [("name", JsVal.str "x"), ("email", JsVal.str "c@example.com"),
            ("password", JsVal.str "pw")]).outcome =
        Outcome.next (NextArg.domain ErrorClass.ValidationError
          "Переданы некорректные данные")) :=
  have h := (createNewUser_conflict sampleBackend sampleConfig).1
    (memBackend_uniqueEmail sampleSchema sampleCrypto) emptyStore aliceStore
    aliceBody aliceAgainBody
    (UserRec.withPassword ⟨aliceId, "Alice", "Diver", "https://example.com/a.png",
      "a@example.com", "$2b$correct"⟩) "$2b$correct" "$2b$other"
    (UserRec.withPassword ⟨aliceId, "Alice Again", "Swimmer", "https://example.com/b.png",
      "a@example.com", "$2b$other"⟩,
      ⟨[⟨aliceId, "Alice Again", "Swimmer", "https://example.com/b.png",
        "a@example.com", "$2b$other"⟩], 1⟩)
    rfl rfl rfl rfl rfl
  have h' := (createNewUser_conflict sampleBackend sampleConfig).2.1 emptyStore
    [("name", JsVal.str "x"), ("email", JsVal.str "c@example.com"),
      ("password", JsVal.str "pw")] "$2b$pw" validationError rfl rfl (Or.inr rfl) rfl
  ⟨⟨h.1, h.2.2.1⟩, ⟨rfl, h'.1⟩⟩

/-- C6: no body a handler sends has a `password` key.  The bodies of
`createNewUser` and `login` are object literals without that key, whatever the
store returns, `login` reading the record with the hash selected included; the
other five send what the store returned by a read that does not select the
hash, which has no such key when the store hides the field. -/
theorem no_password_in_body {σ : Type} (B : Backend σ) (cfg : Config) (s : σ) :
    (B.HidesPassword → ∀ (req : Request) (r : Response),
        (handle B cfg s req).outcome = Outcome.sent r → r.body.hasKey "password" = false) ∧
      (∀ (body : Obj) (r : Response),
        (login B cfg s body).outcome = Outcome.sent r → r.body.hasKey "password" = false) ∧
      (∀ (body : Obj) (r : Response),
        (createNewUser B cfg s body).outcome = Outcome.sent r →
          r.body.hasKey "password" = false) := by
  have hlogin : ∀ (body : Obj) (r : Response),
      (login B cfg s body).outcome = Outcome.sent r → r.body.hasKey "password" = false := by
    intro body r h
    simp only [login] at h
    split at h
    · cases h
    · cases h
    · split at h
      · cases h
      · cases h
      · split at h
        · cases h
        · cases h
          simp [Body.hasKey, Obj.keys, loginBody]
  have hcreate : ∀ (body : Obj) (r : Response),
      (createNewUser B cfg s body).outcome = Outcome.sent r →
        r.body.hasKey "password" = false := by
    intro body r h
    simp only [createNewUser] at h
    split at h
    · cases h
    · split at h
      · cases h
      · cases h
        simp [Body.hasKey, Obj.keys, createdBody]
  refine ⟨?_, hlogin, hcreate⟩
  intro hH req r h
  obtain ⟨hfind, hbyId, hupd⟩ := hH
  cases req with
  | getAllUsers =>
    simp only [handle, getAllUsers] at h
    split at h
    · rename_i users hu
      cases h
      simp only [Body.hasKey, List.any_eq_false]
      intro u hmem
      simpa using hfind s users hu u hmem
    · cases h
  | getCurrentUser id =>
    simp only [handle, getCurrentUser] at h
    split at h
    · rename_i u hu
      cases h
      simpa [Body.hasKey] using hbyId s id u hu
    · cases h
  | getUserById userId =>
    simp only [handle, getUserById] at h
    split at h
    · rename_i u hu
      cases h
      simpa [Body.hasKey] using hbyId s _ u hu
    · cases h
  | createNewUser body => exact hcreate body r h
  | updateProfile id body =>
    simp only [handle, updateProfile] at h
    split at h
    · rename_i u s' hu
      cases h
      simpa [Body.hasKey] using hupd s id _ _ u s' hu
    · cases h
  | updateAvatar id body =>
    simp only [handle, updateAvatar] at h
    split at h
    · rename_i u s' hu
      cases h
      simpa [Body.hasKey] using hupd s id _ _ u s' hu
    · cases h
  | login body => exact hlogin body r h

/-- Witness of C6: the body `getAllUsers` sends over the sample store. -/
theorem no_password_in_body_witness :
    (handle sampleBackend sampleConfig aliceStore Request.getAllUsers).outcome =
        Outcome.sent ⟨some 200, [], Body.docs [[("_id", JsVal.str aliceId),
          ("name", JsVal.str "Alice"), ("about", JsVal.str "Diver"),
          ("avatar", JsVal.str "https://example.com/a.png"),
          ("email", JsVal.str "a@example.com")]]⟩ ∧
      (Body.docs [[("_id", JsVal.str aliceId),
          ("name", JsVal.str "Alice"), ("about", JsVal.str "Diver"),
          ("avatar", JsVal.str "https://example.com/a.png"),
          ("email", JsVal.str "a@example.com")]]).hasKey "password" = false :=
  ⟨rfl, (no_password_in_body sampleBackend sampleConfig aliceStore).1
    (memBackend_hidesPassword sampleSchema sampleCrypto) Request.getAllUsers
    ⟨some 200, [], Body.docs [[("_id", JsVal.str aliceId),
          ("name", JsVal.str "Alice"), ("about", JsVal.str "Diver"),
          ("avatar", JsVal.str "https://example.com/a.png"),
          ("email", JsVal.str "a@example.com")]]⟩ rfl⟩

/-- C10: when the hasher verifies its own digests, the store returns what was
created and the signer returns a token, a `login` with the email and password a
`createNewUser` has just succeeded with takes neither `UnauthorizedError`
branch: it sends the `_id`, name, about, avatar and email of the created user,
the last four being those the registration answered with, and sets as cookie
the token signed for that `_id`. -/
theorem register_then_login {σ : Type} (B : Backend σ) (cfg : Config) (s : σ)
    (body lbody : Obj) (r : Response)
    (hH : B.HashVerifies) (hR : B.ReturnsCreated) (hS : B.SignsAll cfg)
    (hc : (createNewUser B cfg s body).outcome = Outcome.sent r)
    (he : Obj.get lbody "email" = Obj.get body "email")
    (hp : Obj.get lbody "password" = Obj.get body "password") :
    ∃ (digest : String) (d : Obj) (s' : σ) (token : String),
      B.hash s (Obj.get body "password") 10 = Except.ok digest ∧
      B.create s (createFields body digest) = Except.ok (d, s') ∧
      (createNewUser B cfg s body).state = s' ∧
      r.body = Body.doc [("name", Obj.get d "name"), ("about", Obj.get d "about"),
        ("email", Obj.get d "email"), ("avatar", Obj.get d "avatar")] ∧
      B.sign [("_id", Obj.get d "_id")] cfg.TOKEN_SECRET "7d" = Except.ok token ∧
      (login B cfg s' lbody).outcome =
        Outcome.sent ⟨none, [⟨"jwt", token, loginCookieOptions⟩],
          Body.doc [("_id", Obj.get d "_id"), ("name", Obj.get d "name"),
            ("about", Obj.get d "about"), ("avatar", Obj.get d "avatar"),
            ("email", Obj.get d "email")]⟩ := by
  cases hh : B.hash s (Obj.get body "password") 10 with
  | error e => simp [createNewUser, hh] at hc
  | ok digest =>
    cases hcr : B.create s (createFields body digest) with
    | error e => simp [createNewUser, hh, hcr] at hc
    | ok p =>
      obtain ⟨d, s'⟩ := p
      simp only [createNewUser, hh, hcr, Outcome.sent.injEq] at hc
      obtain ⟨u, hu, hid, hname, habout, havatar, hemail, hpw⟩ := hR s _ d s' hcr
      have hfe : Obj.get (createFields body digest) "email" = Obj.get body "email" := by
        simp [createFields, Obj.get]
      have hfp : Obj.get (createFields body digest) "password" = JsVal.str digest := by
        simp [createFields, Obj.get]
      rw [hfe] at hu
      rw [hfp] at hpw
      have hv := hH s _ 10 digest hh
      obtain ⟨token, ht⟩ := hS [("_id", Obj.get d "_id")]
      refine ⟨digest, d, s', token, rfl, hcr, ?_, ?_, ht, ?_⟩
      · simp [createNewUser, hh, hcr]
      · rw [← hc]
        rfl
      · simp [login, he, hp, hu, hpw, hv, hid, ht, loginBody, hname, habout, havatar, hemail]

/-- Witness of C10: `aliceBody` registered on the empty store, then a login with
its email and password. -/
theorem register_then_login_witness :
    ∃ (digest : String) (d : Obj) (s' : MemStore) (token : String),
      sampleBackend.hash emptyStore (Obj.get aliceBody "password") 10 = Except.ok digest ∧
      sampleBackend.create emptyStore (createFields aliceBody digest) = Except.ok (d, s') ∧
      (createNewUser sampleBackend sampleConfig emptyStore aliceBody).state = s' ∧
      (Body.doc [("name", JsVal.str "Alice"), ("about", JsVal.str "Diver"),
          ("email", JsVal.str "a@example.com"),
          ("avatar", JsVal.str "https://example.com/a.png")]) =
        Body.doc [("name", Obj.get d "name"), ("about", Obj.get d "about"),
          ("email", Obj.get d "email"), ("avatar", Obj.get d "avatar")] ∧
      sampleBackend.sign [("_id", Obj.get d "_id")] sampleConfig.TOKEN_SECRET "7d" =
        Except.ok token ∧
      (login sampleBackend sampleConfig s'
          [("email", JsVal.str "a@example.com"), ("password", JsVal.str "correct")]).outcome =
        Outcome.sent ⟨none, [⟨"jwt", token, loginCookieOptions⟩],
          Body.doc [("_id", Obj.get d "_id"), ("name", Obj.get d "name"),
            ("about", Obj.get d "about"), ("avatar", Obj.get d "avatar"),
            ("email", Obj.get d "email")]⟩ :=
  register_then_login sampleBackend sampleConfig emptyStore aliceBody
    [("email", JsVal.str "a@example.com"), ("password", JsVal.str "correct")]
    ⟨some 201, [], Body.doc [("name", JsVal.str "Alice"), ("about", JsVal.str "Diver"),
      ("email", JsVal.str "a@example.com"), ("avatar", JsVal.str "https://example.com/a.png")]⟩
    sampleBackend_hashVerifies (memBackend_returnsCreated sampleSchema sampleCrypto)
    (sampleBackend_signsAll sampleConfig) rfl rfl rfl

/-- C8: over the in-memory store, for a user that `getCurrentUser` finds and a
body with a valid name and about, `updateProfile` followed by `getCurrentUser`
returns the new name and about with the email, avatar and `_id` it had before,
and the same `updateProfile` once more leaves the store and the returned record
as they are.  Over every backend `updateProfile` gives the store the update
object of the two keys name and about, and `updateAvatar` that of the one key
avatar; over the in-memory store neither changes the `_id`, email or password
of any record. -/
theorem updateProfile_frame (sch : Schema) (K : Crypto) (cfg : Config) :
    (∀ (s : MemStore) (id : JsVal) (body old : Obj) (name about : String),
        Obj.get body "name" = JsVal.str name → Obj.get body "about" = JsVal.str about →
        sch.nameOk name = true → sch.aboutOk about = true →
        (getCurrentUser (memBackend sch K) cfg s id).outcome =
          Outcome.sent ⟨some cfg.SUCCESS_CODE, [], Body.doc old⟩ →
        ∃ d, (updateProfile (memBackend sch K) cfg s id body).outcome =
            Outcome.sent ⟨some cfg.SUCCESS_CODE, [], Body.doc d⟩ ∧
          (getCurrentUser (memBackend sch K) cfg
              (updateProfile (memBackend sch K) cfg s id body).state id).outcome =
            Outcome.sent ⟨some cfg.SUCCESS_CODE, [], Body.doc d⟩ ∧
          Obj.get d "name" = JsVal.str name ∧ Obj.get d "about" = JsVal.str about ∧
          Obj.get d "email" = Obj.get old "email" ∧
          Obj.get d "avatar" = Obj.get old "avatar" ∧
          Obj.get d "_id" = Obj.get old "_id" ∧
          (updateProfile (memBackend sch K) cfg
              (updateProfile (memBackend sch K) cfg s id body).state id body).outcome =
            (updateProfile (memBackend sch K) cfg s id body).outcome ∧
          (updateProfile (memBackend sch K) cfg
              (updateProfile (memBackend sch K) cfg s id body).state id body).state =
            (updateProfile (memBackend sch K) cfg s id body).state) ∧
      (∀ (σ : Type) (B : Backend σ) (s : σ) (id : JsVal) (body : Obj),
        (updateProfile B cfg s id body).calls =
            [Call.findByIdAndUpdateOrFail id
              [("name", Obj.get body "name"), ("about", Obj.get body "about")] ⟨true, true⟩] ∧
          (updateAvatar B cfg s id body).calls =
            [Call.findByIdAndUpdateOrFail id [("avatar", Obj.get body "avatar")] ⟨true, true⟩]) ∧
      (∀ (s : MemStore) (id : JsVal) (body : Obj),
        (updateProfile (memBackend sch K) cfg s id body).state.users.map
            (fun r => (r._id, r.email, r.password)) =
          s.users.map (fun r => (r._id, r.email, r.password)) ∧
        (updateAvatar (memBackend sch K) cfg s id body).state.users.map
            (fun r => (r._id, r.email, r.password)) =
          s.users.map (fun r => (r._id, r.email, r.password))) := by
  refine ⟨?_, ?_, ?_⟩
  · intro s id body old name about hbn hba hn ha hold
    have hfind : ∃ u, MemStore.findByIdOrFail sch s id = Except.ok u ∧ u = old := by
      cases hf : MemStore.findByIdOrFail sch s id with
      | error e => simp [getCurrentUser, memBackend, hf] at hold
      | ok u =>
        refine ⟨u, rfl, ?_⟩
        simpa [getCurrentUser, memBackend, hf] using hold
    obtain ⟨u, hu, rfl⟩ := hfind
    obtain ⟨hid, r, hr, rfl⟩ := MemStore.findByIdOrFail_ok hu
    have hp : ∀ r' : UserRec,
        (fun r : UserRec => decide (JsVal.str r._id = id))
            (r'.assign ⟨some name, some about, none, none, none⟩) =
          (fun r : UserRec => decide (JsVal.str r._id = id)) r' := fun _ => rfl
    have hf : ∀ r' : UserRec,
        (r'.assign ⟨some name, some about, none, none, none⟩).assign
            ⟨some name, some about, none, none, none⟩ =
          r'.assign ⟨some name, some about, none, none, none⟩ := fun _ => rfl
    have h1 := MemStore.update_profile_ok sch s id r name about hid hr hn ha
    have hr' : (updateFirst (fun r => decide (JsVal.str r._id = id))
          (fun r => r.assign ⟨some name, some about, none, none, none⟩) s.users).find?
          (fun r => decide (JsVal.str r._id = id)) =
        some (r.assign ⟨some name, some about, none, none, none⟩) := by
      rw [find?_updateFirst _ _ hp, hr]
      rfl
    have h2 := MemStore.update_profile_ok sch
      ⟨updateFirst (fun r => decide (JsVal.str r._id = id))
        (fun r => r.assign ⟨some name, some about, none, none, none⟩) s.users, s.counter⟩
      id _ name about hid hr' hn ha
    rw [hf, updateFirst_idem _ _ hp hf] at h2
    have hrun : updateProfile (memBackend sch K) cfg s id body =
        ⟨[Call.findByIdAndUpdateOrFail id
            [("name", JsVal.str name), ("about", JsVal.str about)] updateOptions], none,
          Outcome.sent ⟨some cfg.SUCCESS_CODE, [],
            Body.doc (r.assign ⟨some name, some about, none, none, none⟩).toPublic⟩,
          ⟨updateFirst (fun r => decide (JsVal.str r._id = id))
            (fun r => r.assign ⟨some name, some about, none, none, none⟩) s.users,
            s.counter⟩⟩ := by
      simp only [updateProfile, memBackend, hbn, hba, h1]
    have hrun2 : updateProfile (memBackend sch K) cfg
          ⟨updateFirst (fun r => decide (JsVal.str r._id = id))
            (fun r => r.assign ⟨some name, some about, none, none, none⟩) s.users,
            s.counter⟩ id body =
        ⟨[Call.findByIdAndUpdateOrFail id
            [("name", JsVal.str name), ("about", JsVal.str about)] updateOptions], none,
          Outcome.sent ⟨some cfg.SUCCESS_CODE, [],
            Body.doc (r.assign ⟨some name, some about, none, none, none⟩).toPublic⟩,
          ⟨updateFirst (fun r => decide (JsVal.str r._id = id))
            (fun r => r.assign ⟨some name, some about, none, none, none⟩) s.users,
            s.counter⟩⟩ := by
      simp only [updateProfile, memBackend, hbn, hba, h2]
    refine ⟨(r.assign ⟨some name, some about, none, none, none⟩).toPublic, ?_, ?_,
      ?_, ?_, ?_, ?_, ?_, ?_, ?_⟩
    · rw [hrun]
    · rw [hrun]
      simp only [getCurrentUser, memBackend, MemStore.findByIdOrFail, hid, if_true, hr']
    · simp [UserRec.toPublic, UserRec.assign, Obj.get]
    · simp [UserRec.toPublic, UserRec.assign, Obj.get]
    · simp [UserRec.toPublic, UserRec.assign, Obj.get]
    · simp [UserRec.toPublic, UserRec.assign, Obj.get]
    · simp [UserRec.toPublic, UserRec.assign, Obj.get]
    · rw [hrun, hrun2]
    · rw [hrun, hrun2]
  · intro σ B s id body
    constructor
    · simp only [updateProfile, updateOptions]
      split <;> rfl
    · simp only [updateAvatar, updateOptions]
      split <;> rfl
  · intro s id body
    constructor
    · cases hu : MemStore.findByIdAndUpdateOrFail sch s id
          [("name", Obj.get body "name"), ("about", Obj.get body "about")] updateOptions with
      | error e => simp [updateProfile, memBackend, hu]
      | ok p =>
        obtain ⟨u, s'⟩ := p
        obtain ⟨patch, hpatch, rfl⟩ := MemStore.findByIdAndUpdateOrFail_ok hu
        obtain ⟨-, he, hpw⟩ := castUpdate_profile_frame hpatch
        simp only [updateProfile, memBackend, hu]
        apply map_updateFirst
        intro r
        simp [UserRec.assign, he, hpw]
    · cases hu : MemStore.findByIdAndUpdateOrFail sch s id
          [("avatar", Obj.get body "avatar")] updateOptions with
      | error e => simp [updateAvatar, memBackend, hu]
      | ok p =>
        obtain ⟨u, s'⟩ := p
        obtain ⟨patch, hpatch, rfl⟩ := MemStore.findByIdAndUpdateOrFail_ok hu
        obtain ⟨-, -, he, hpw⟩ := castUpdate_avatar_frame hpatch
        simp only [updateAvatar, memBackend, hu]
        apply map_updateFirst
        intro r
        simp [UserRec.assign, he, hpw]

/-- Witness of C8: a new name and about for the user of the sample store. -/
theorem updateProfile_frame_witness :
    ∃ d, (updateProfile sampleBackend sampleConfig aliceStore (JsVal.str aliceId)
          [("name", JsVal.str "NewName"), ("about", JsVal.str "NewAbout")]).outcome =
        Outcome.sent ⟨some 200, [], Body.doc d⟩ ∧
      (getCurrentUser sampleBackend sampleConfig
          (updateProfile sampleBackend sampleConfig aliceStore (JsVal.str aliceId)
            [("name", JsVal.str "NewName"), ("about", JsVal.str "NewAbout")]).state
          (JsVal.str aliceId)).outcome =
        Outcome.sent ⟨some 200, [], Body.doc d⟩ ∧
      Obj.get d "name" = JsVal.str "NewName" ∧ Obj.get d "about" = JsVal.str "NewAbout" ∧
      Obj.get d "email" = JsVal.str "a@example.com" ∧
      Obj.get d "avatar" = JsVal.str "https://example.com/a.png" :=
  have ⟨d, h1, h2, h3, h4, h5, h6, _⟩ :=
    (updateProfile_frame sampleSchema sampleCrypto sampleConfig).1 aliceStore
      (JsVal.str aliceId) [("name", JsVal.str "NewName"), ("about", JsVal.str "NewAbout")]
      [("_id", JsVal.str aliceId), ("name", JsVal.str "Alice"), ("about", JsVal.str "Diver"),
        ("avatar", JsVal.str "https://example.com/a.png"), ("email", JsVal.str "a@example.com")]
      "NewName" "NewAbout" rfl rfl rfl rfl rfl
  ⟨d, h1, h2, h3, h4, h5, h6⟩

end Mesto
